import Mathlib

/-!
Verification of the extraction-and-change-detection core of
`appstore_top_free.py` (an App Store / TSA / approval-CSV monitor).

The Python program is shallowly embedded in Lean.  Pure parsing functions
are translated line by line; the orchestrating `main` is embedded as a pure
function `mainCore` from an environment (fetched raw content plus the
previously persisted state, as loaded at run start) to a run outcome
(exit status, the records written to the snapshot store, and which
notifications fired).  External boundaries are modelled as follows:

* BeautifulSoup tree queries appear as pre-extracted structures: a chart
  page is a list of `Anchor` (href, optional nested heading text, anchor
  text), a TSA page is a list of tables, each table a list of rows, each
  row the list of its cell texts (the result of `get_text(" ", strip=True)`
  on each `td`/`th`); the text of a row is modelled as the space-joined
  text of its cells.
* The `csv`, `json`, `datetime` modules and UTF-8 decoding are
  re-implemented executably below, restricted to the behaviour the program
  exercises (ASCII case mapping, the default CSV dialect, JSON without the
  NaN/Infinity extensions, datetimes as microsecond counts in the
  proleptic Gregorian calendar).  Python floats are modelled as exact
  decimals `m * 10 ^ e`; the int/float type distinction and float rounding
  are elided (no claim involves non-integer numbers).
* Network transport: the two mandatory chart fetches are assumed to have
  returned text (HTTP mechanics are out of scope); each optional fetch is
  an `Option`, `none` meaning the fetch raised (the exception is caught by
  the surrounding `try` in `main`).
* A Python `None` result is represented by `Json.null`; a write to a state
  file is recorded as `Option Json` (`none` = the file was not touched).
* An uncaught Python exception escaping `main` is modelled by exit
  status `none`: the TypeError of the naive-vs-aware heartbeat comparison
  at line 433 on an offset-bearing stored timestamp, the
  TypeError/KeyError of `format_ranked_list` on an ill-typed stored chart
  list, the AttributeError of `.strip()` on a truthy non-string stored
  `row_key`, and the `int(...)` failure while formatting the TSA alert.
  Each models the statement where the source would raise, so everything
  already executed (state writes, earlier notifications) stays recorded
  and everything after it does not happen.
-/

/-! ## ASCII character and string helpers (models of Python `str` methods) -/

/-- Whitespace as in Python's `str.strip` / regex `\s`, ASCII fragment. -/
def isSpaceChar (c : Char) : Bool :=
  c == ' ' || c == '\t' || c == '\n' || c == '\r' ||
  c == Char.ofNat 11 || c == Char.ofNat 12

def isDigitChar (c : Char) : Bool :=
  '0' ≤ c && c ≤ '9'

def digitVal (c : Char) : Nat := c.toNat - 48

/-- ASCII lower-casing (model of `str.lower` on the ASCII inputs used here). -/
def toLowerChar (c : Char) : Char :=
  if 'A' ≤ c && c ≤ 'Z' then Char.ofNat (c.toNat + 32) else c

def stripChars (cs : List Char) : List Char :=
  ((cs.dropWhile isSpaceChar).reverse.dropWhile isSpaceChar).reverse

/-- Python `str.strip()`. -/
def pyStrip (s : String) : String := ⟨stripChars s.data⟩

/-- Python `str.lower()` (ASCII model). -/
def pyLower (s : String) : String := ⟨s.data.map toLowerChar⟩

/-- Splitting into whitespace-separated words, as Python `str.split()`. -/
def wordsAux : List Char → List Char → List (List Char)
  | [], acc => if acc.isEmpty then [] else [acc.reverse]
  | c :: rest, acc =>
    if isSpaceChar c then
      if acc.isEmpty then wordsAux rest [] else acc.reverse :: wordsAux rest []
    else wordsAux rest (c :: acc)

def pyWords (s : String) : List String :=
  (wordsAux s.data []).map (fun cs => ⟨cs⟩)

def joinSep (sep : String) : List String → String
  | [] => ""
  | [x] => x
  | x :: y :: rest => x ++ sep ++ joinSep sep (y :: rest)

/-- Model of `re.sub(r"\s+", " ", s).strip()`: collapse whitespace runs and
trim, equivalently the space-join of the whitespace-split words. -/
def collapseWs (s : String) : String := joinSep " " (pyWords s)

/-- Whether `nee` occurs as a contiguous substring (Python `in` on `str`). -/
def hasSubChars (nee : List Char) : List Char → Bool
  | [] => nee.isEmpty
  | c :: t => nee.isPrefixOf (c :: t) || hasSubChars nee t

def pyContains (hay nee : String) : Bool := hasSubChars nee.data hay.data

def digitsToNatAux : List Char → Nat → Nat
  | [], acc => acc
  | c :: rest, acc => digitsToNatAux rest (acc * 10 + digitVal c)

def digitsToNat (cs : List Char) : Nat := digitsToNatAux cs 0

def natToCharsAux : Nat → Nat → List Char → List Char
  | 0, _, acc => acc
  | fuel + 1, n, acc =>
    if n < 10 then Char.ofNat (48 + n) :: acc
    else natToCharsAux fuel (n / 10) (Char.ofNat (48 + n % 10) :: acc)

def natToString (n : Nat) : String := ⟨natToCharsAux (n + 1) n []⟩

def intToString : Int → String
  | .ofNat n => natToString n
  | .negSucc n => "-" ++ natToString (n + 1)

/-- Left-pad a numeral with zeros to the given width. -/
def padZeros (width n : Nat) : String :=
  let s := natToString n
  ⟨List.replicate (width - s.data.length) '0'⟩ ++ s

/-! ## Python values

Python values flowing through the program (JSON data, parsed facts) are
modelled by `Json`; `Json.null` is Python `None`.  Lists and objects use
dedicated mutual inductives so that all recursions below are structural
(and hence evaluate inside the kernel). -/

mutual
inductive Json where
  | null
  | bool (b : Bool)
  | num (m e : Int)
  | str (s : String)
  | arr (xs : JsonList)
  | obj (kvs : JsonKVs)
deriving Repr, DecidableEq

inductive JsonList where
  | nil
  | cons (hd : Json) (tl : JsonList)
deriving Repr, DecidableEq

inductive JsonKVs where
  | nil
  | cons (k : String) (v : Json) (tl : JsonKVs)
deriving Repr, DecidableEq
end

def JsonList.ofList : List Json → JsonList
  | [] => .nil
  | x :: rest => .cons x (JsonList.ofList rest)

def JsonKVs.ofList : List (String × Json) → JsonKVs
  | [] => .nil
  | (k, v) :: rest => .cons k v (JsonKVs.ofList rest)

def Json.arrOf (xs : List Json) : Json := .arr (.ofList xs)

def Json.objOf (kvs : List (String × Json)) : Json := .obj (.ofList kvs)

/-- An integer value (`m * 10 ^ 0`). -/
def intNum (n : Int) : Json := .num n 0

def kvsLookup : JsonKVs → String → Option Json
  | .nil, _ => none
  | .cons k v tl, key => if k == key then some v else kvsLookup tl key

def kvsLen : JsonKVs → Nat
  | .nil => 0
  | .cons _ _ tl => 1 + kvsLen tl

/-- Exact comparison of the decimal values `m1 * 10 ^ e1` and `m2 * 10 ^ e2`. -/
def numValEq (m1 e1 m2 e2 : Int) : Bool :=
  if e2 ≤ e1 then m1 * 10 ^ (e1 - e2).toNat == m2
  else m1 == m2 * 10 ^ (e2 - e1).toNat

mutual
/-- Python `==` on the modelled values: `True == 1`, numbers compare by
value, lists elementwise, dicts as key-value maps. -/
def pyEq : Json → Json → Bool
  | .null, .null => true
  | .bool a, .bool b => a == b
  | .bool a, .num m e => numValEq m e (if a then 1 else 0) 0
  | .num m e, .bool a => numValEq m e (if a then 1 else 0) 0
  | .num m e, .num m2 e2 => numValEq m e m2 e2
  | .str a, .str b => a == b
  | .arr a, .arr b => pyEqList a b
  | .obj a, .obj b => kvsLen a == kvsLen b && pyEqKVs a b
  | _, _ => false

def pyEqList : JsonList → JsonList → Bool
  | .nil, .nil => true
  | .cons a as, .cons b bs => pyEq a b && pyEqList as bs
  | _, _ => false

def pyEqKVs : JsonKVs → JsonKVs → Bool
  | .nil, _ => true
  | .cons k v tl, b =>
    (match kvsLookup b k with
     | none => false
     | some w => pyEq v w) && pyEqKVs tl b
end

/-- Python truthiness of the modelled values. -/
def pyTruthy : Json → Bool
  | .null => false
  | .bool b => b
  | .num m _ => m != 0
  | .str s => s != ""
  | .arr .nil => false
  | .arr (.cons _ _) => true
  | .obj .nil => false
  | .obj (.cons _ _ _) => true

def isDict : Json → Bool
  | .obj _ => true
  | _ => false

def isList : Json → Bool
  | .arr _ => true
  | _ => false

/-- Python `d.get(k)` on a dict (default `None`); `Json.null` on non-dicts
(the program only calls it after an `isinstance(d, dict)` check). -/
def dictGet (j : Json) (k : String) : Json :=
  match j with
  | .obj kvs => (kvsLookup kvs k).getD .null
  | _ => .null

/-- Python `d.get(k, dflt)`. -/
def dictGetD (j : Json) (k : String) (dflt : Json) : Json :=
  match j with
  | .obj kvs => (kvsLookup kvs k).getD dflt
  | _ => dflt

/-- Python `a or b`. -/
def pyOr (a b : Json) : Json := if pyTruthy a then a else b

/-- Decimal rendering of `m * 10 ^ e` (model of `str` on numbers; the
int/float distinction and float-repr normalization are elided). -/
def numRender (m e : Int) : String :=
  if 0 ≤ e then intToString (m * 10 ^ e.toNat)
  else
    let k := (-e).toNat
    let sign := if m < 0 then "-" else ""
    let a := m.natAbs
    sign ++ natToString (a / 10 ^ k) ++ "." ++ padZeros k (a % 10 ^ k)

mutual
/-- Python `repr` of the modelled values (string quoting approximated with
single quotes, no escape processing; containers as in CPython). -/
def pyReprOf : Json → String
  | .null => "None"
  | .bool b => if b then "True" else "False"
  | .num m e => numRender m e
  | .str s => "\x27" ++ s ++ "\x27"
  | .arr xs => "[" ++ pyReprList xs ++ "]"
  | .obj kvs => "\x7b" ++ pyReprKVs kvs ++ "\x7d"

def pyReprList : JsonList → String
  | .nil => ""
  | .cons x .nil => pyReprOf x
  | .cons x (.cons y tl) => pyReprOf x ++ ", " ++ pyReprList (.cons y tl)

def pyReprKVs : JsonKVs → String
  | .nil => ""
  | .cons k v .nil => "\x27" ++ k ++ "\x27: " ++ pyReprOf v
  | .cons k v (.cons k2 v2 tl) =>
    "\x27" ++ k ++ "\x27: " ++ pyReprOf v ++ ", " ++ pyReprKVs (.cons k2 v2 tl)
end

/-- Python `str(x)`. -/
def pyStrOf : Json → String
  | .str s => s
  | j => pyReprOf j

/-- Python `int(x)` on the modelled values: `none` means `int` raised.
Floats truncate toward zero; strings are stripped and must be an optionally
signed run of digits. -/
def intOfChars : List Char → Option Int
  | [] => none
  | '-' :: rest => if rest ≠ [] && rest.all isDigitChar then
      some (-(Int.ofNat (digitsToNat rest))) else none
  | '+' :: rest => if rest ≠ [] && rest.all isDigitChar then
      some (Int.ofNat (digitsToNat rest)) else none
  | c :: rest => if (c :: rest).all isDigitChar then
      some (Int.ofNat (digitsToNat (c :: rest))) else none

def pyIntOf : Json → Option Int
  | .bool b => some (if b then 1 else 0)
  | .num m e => some (if 0 ≤ e then m * 10 ^ e.toNat
                      else Int.tdiv m (10 ^ (-e).toNat))
  | .str s => intOfChars (stripChars s.data)
  | _ => none

/-! ## The `csv` module (default dialect) and `csv.DictReader`

`csvRecords` models `list(csv.reader(io.StringIO(text)))`: fields separated
by commas, records by newlines (a CR, an LF, or a CRLF pair), double-quote
quoting with doubled-quote escapes, newlines kept inside quoted fields, a
blank line yielding an empty record. -/

inductive CsvSt where
  | fieldStart
  | inField
  | inQuoted
  | afterQuote
  | afterCR
deriving Repr, DecidableEq

/-- One pass over the characters.  `field` is the current field (reversed),
`rec` the fields of the current record (reversed). -/
def csvAux : List Char → CsvSt → List Char → List String → List (List String)
  | [], st, field, rec =>
    -- end of data: flush a pending record, if any
    match st with
    | .fieldStart => if rec.isEmpty then [] else [(⟨field.reverse⟩ :: rec).reverse]
    | .afterCR => []
    | _ => [(⟨field.reverse⟩ :: rec).reverse]
  | c :: rest, st, field, rec =>
    match st with
    | .fieldStart =>
      if c == '"' then csvAux rest .inQuoted field rec
      else if c == ',' then csvAux rest .fieldStart [] (⟨field.reverse⟩ :: rec)
      else if c == '\n' then
        (if rec.isEmpty then [] :: csvAux rest .fieldStart [] []
         else (⟨field.reverse⟩ :: rec).reverse :: csvAux rest .fieldStart [] [])
      else if c == '\r' then
        (if rec.isEmpty then [] :: csvAux rest .afterCR [] []
         else (⟨field.reverse⟩ :: rec).reverse :: csvAux rest .afterCR [] [])
      else csvAux rest .inField (c :: field) rec
    | .inField =>
      if c == ',' then csvAux rest .fieldStart [] (⟨field.reverse⟩ :: rec)
      else if c == '\n' then
        (⟨field.reverse⟩ :: rec).reverse :: csvAux rest .fieldStart [] []
      else if c == '\r' then
        (⟨field.reverse⟩ :: rec).reverse :: csvAux rest .afterCR [] []
      else csvAux rest .inField (c :: field) rec
    | .inQuoted =>
      if c == '"' then csvAux rest .afterQuote field rec
      else csvAux rest .inQuoted (c :: field) rec
    | .afterQuote =>
      if c == '"' then csvAux rest .inQuoted ('"' :: field) rec
      else if c == ',' then csvAux rest .fieldStart [] (⟨field.reverse⟩ :: rec)
      else if c == '\n' then
        (⟨field.reverse⟩ :: rec).reverse :: csvAux rest .fieldStart [] []
      else if c == '\r' then
        (⟨field.reverse⟩ :: rec).reverse :: csvAux rest .afterCR [] []
      else csvAux rest .inField (c :: field) rec
    | .afterCR =>
      -- a record was just emitted at the CR; swallow one LF of a CRLF pair
      if c == '\n' then csvAux rest .fieldStart [] []
      else if c == '"' then csvAux rest .inQuoted field rec
      else if c == ',' then csvAux rest .fieldStart [] (⟨field.reverse⟩ :: rec)
      else if c == '\r' then [] :: csvAux rest .afterCR [] []
      else csvAux rest .inField (c :: field) rec

def csvRecords (text : String) : List (List String) :=
  csvAux text.data .fieldStart [] []

/-- The value of `dict(zip(fieldnames, row)).get(col)` after `DictReader`
pads a short row with `None` (`restval`): for the last `i` with
`fns[i] = col`, the cell `row[i]` if present, else `None`; `None` also when
`col` is not a field name.  `none` is Python `None`. -/
def pyRowGet (fns row : List String) (col : String) : Option String :=
  match (fns.reverse.findIdx? (fun c => c == col)) with
  | none => none
  | some ridx => row.get? (fns.length - 1 - ridx)

/-! ## `parse_latest_approval_from_csv` (source lines 208-253)

Finds the newest non-empty value in the `approval` column; newest = last
row in the CSV with non-empty approval; captures a date-like key from
common columns, otherwise uses the row index.  Returns `Json.null` for
Python `None`. -/

def approvalColOf (fns : List String) : Option String :=
  fns.find? (fun c => c != "" && pyLower (pyStrip c) == "approval")

def dateKeyColOf (fns : List String) : Option String :=
  ["date", "day", "week", "month", "timestamp", "time"].findSome?
    (fun cand => fns.find? (fun c => c != "" && pyLower (pyStrip c) == cand))

/-- The loop body at index `i`: `none` when the approval value is empty
(continue), otherwise the returned fact. -/
def approvalRow (fns : List String) (acol : String) (kcol : Option String)
    (rows : List (List String)) (i : Nat) : Option Json :=
  let row := rows.getD i []
  let val := pyStrip ((pyRowGet fns row acol).getD "")
  if val == "" then none
  else
    let rkey :=
      match kcol with
      | some kc =>
        let rk := pyStrip ((pyRowGet fns row kc).getD "")
        if rk == "" then "row_" ++ natToString (i + 1) else rk
      | none => "row_" ++ natToString (i + 1)
    some (Json.objOf [("row_key", .str rkey), ("approval", .str val)])

/-- The loop `for i in range(len(rows) - 1, -1, -1): ...`, entered at `i`. -/
def approvalScan (fns : List String) (acol : String) (kcol : Option String)
    (rows : List (List String)) : Nat → Json
  | 0 => (approvalRow fns acol kcol rows 0).getD .null
  | i + 1 =>
    match approvalRow fns acol kcol rows (i + 1) with
    | some j => j
    | none => approvalScan fns acol kcol rows i

def parse_latest_approval_from_csv (csv_text : String) : Json :=
  match csvRecords csv_text with
  | [] => .null                        -- reader.fieldnames is None
  | fns :: rest =>
    if fns.isEmpty then .null          -- `if not reader.fieldnames`
    else
      match approvalColOf fns with
      | none => .null                  -- `if not approval_col`
      | some acol =>
        let kcol := dateKeyColOf fns
        let rows := rest.filter (fun r => !r.isEmpty)  -- DictReader skips blank rows
        if rows.isEmpty then .null     -- `if not rows`
        else approvalScan fns acol kcol rows (rows.length - 1)

/-! ## `maybe_send_approval_alert` (source lines 332-354)

Returns `some b` with `b` = "a change alert was sent"; `none` models the
`AttributeError` raised by `.strip()` when a stored `row_key` is a truthy
non-string (uncaught in `main`). -/

/-- Model of `(x or "").strip()` for a dict-lookup result `x`. -/
def orEmptyStrip (v : Json) : Option String :=
  if pyTruthy v then
    match v with
    | .str s => some (pyStrip s)
    | _ => none
  else some ""

def maybe_send_approval_alert (prev latest : Json) : Option Bool :=
  -- Only alert when we have both prev and latest
  if !pyTruthy latest || !isDict prev then some false
  else
    match orEmptyStrip (dictGet prev "row_key") with
    | none => none
    | some prev_key =>
      let prev_val := pyStrip (pyStrOf (pyOr (dictGet prev "approval") (.str "")))
      match orEmptyStrip (dictGet latest "row_key") with
      | none => none
      | some new_key =>
        let new_val := pyStrip (pyStrOf (pyOr (dictGet latest "approval") (.str "")))
        -- Alert if row changes OR value changes
        some ((prev_key != "" && new_key != "" && prev_key != new_key) ||
              (prev_val != "" && new_val != "" && prev_val != new_val))

/-! ## Dates: `_parse_tsa_date` (source lines 141-149)

`datetime.strptime` is modelled per format.  In a format string a `%m` or
`%d` field is one or two digits with value in range (no `00`), `%Y` exactly
four digits, `%y` exactly two (69..99 mapped to 19xx, 00..68 to 20xx); the
separators `/` and `-` are literal, the whole string must be consumed, and
the `datetime` constructor additionally requires year at least 1 and a
calendar-valid day.  Since fields never contain the separator, matching is
implemented by splitting on the separator. -/

def isLeapYear (y : Nat) : Bool :=
  y % 4 == 0 && (y % 100 != 0 || y % 400 == 0)

def daysInMonth (y m : Nat) : Nat :=
  if m == 2 then (if isLeapYear y then 29 else 28)
  else if m == 4 || m == 6 || m == 9 || m == 11 then 30
  else 31

/-- Split on a separator character (fields in the formats never contain it). -/
def splitOnChar (sep : Char) : List Char → List (List Char)
  | [] => [[]]
  | c :: rest =>
    let r := splitOnChar sep rest
    if c == sep then [] :: r
    else match r with
      | [] => [[c]]
      | f :: fs => (c :: f) :: fs

/-- A `%m` (or `%d`) field: one or two digits, value in `1..hi`. -/
def fieldMD (hi : Nat) (cs : List Char) : Option Nat :=
  if (cs.length == 1 || cs.length == 2) && cs.all isDigitChar then
    let v := digitsToNat cs
    if 1 ≤ v && v ≤ hi then some v else none
  else none

/-- A `%Y` field: exactly four digits, year at least 1. -/
def fieldY4 (cs : List Char) : Option Nat :=
  if cs.length == 4 && cs.all isDigitChar then
    let v := digitsToNat cs
    if 1 ≤ v then some v else none
  else none

/-- A `%y` field: exactly two digits; 0..68 is 2000..2068, 69..99 is 1969..1999. -/
def fieldY2 (cs : List Char) : Option Nat :=
  if cs.length == 2 && cs.all isDigitChar then
    let v := digitsToNat cs
    some (if v < 69 then 2000 + v else 1900 + v)
  else none

def mkValidDate (y m d : Nat) : Option (Nat × Nat × Nat) :=
  if 1 ≤ d && d ≤ daysInMonth y m then some (y, m, d) else none

def strptimeMDY (yearField : List Char → Option Nat) (sep : Char)
    (cs : List Char) : Option (Nat × Nat × Nat) :=
  match splitOnChar sep cs with
  | [mf, df, yf] =>
    match fieldMD 12 mf, fieldMD 31 df, yearField yf with
    | some m, some d, some y => mkValidDate y m d
    | _, _, _ => none
  | _ => none

def strptimeYMD (cs : List Char) : Option (Nat × Nat × Nat) :=
  match splitOnChar '-' cs with
  | [yf, mf, df] =>
    match fieldY4 yf, fieldMD 12 mf, fieldMD 31 df with
    | some y, some m, some d => mkValidDate y m d
    | _, _, _ => none
  | _ => none

/-- Rendering `dt.strftime("%Y-%m-%d")`. -/
def fmtYMD : Nat × Nat × Nat → String
  | (y, m, d) => padZeros 4 y ++ "-" ++ padZeros 2 m ++ "-" ++ padZeros 2 d

/-- Model of `_parse_tsa_date`: try `%m/%d/%Y`, `%m/%d/%y`, `%Y-%m-%d` in order,
render the first success as ISO. -/
def _parse_tsa_date (s : String) : Option String :=
  let t := stripChars s.data
  match strptimeMDY fieldY4 '/' t with
  | some d => some (fmtYMD d)
  | none =>
    match strptimeMDY fieldY2 '/' t with
    | some d => some (fmtYMD d)
    | none =>
      match strptimeYMD t with
      | some d => some (fmtYMD d)
      | none => none

/-- Model of `_parse_int` (source lines 152-160): strip, drop commas/whitespace,
require all digits. -/
def _parse_int (s : String) : Option Int :=
  let t := (stripChars s.data).filter (fun c => !(c == ',' || isSpaceChar c))
  if t ≠ [] && t.all isDigitChar then some (Int.ofNat (digitsToNat t))
  else none

/-! ## `parse_tsa_latest` (source lines 163-188)

A page is a list of tables; a table a list of rows; a row the list of its
cell texts (`get_text(" ", strip=True)` of each `td`/`th`).  The header
text of a table is the normalized lower-cased space-join of its first
row's cells. -/

def tsaHeaderText (t : List (List String)) : String :=
  collapseWs (pyLower (joinSep " " (t.headD [])))

/-- The loop `for r in rows[1:4]`: first row whose first cell parses as a date and
second as an integer. -/
def tsaWindowScan : List (List String) → Json
  | [] => .null
  | r :: rs =>
    if r.length < 2 then tsaWindowScan rs
    else
      match _parse_tsa_date (r.getD 0 ""), _parse_int (r.getD 1 "") with
      | some date_iso, some passengers =>
        Json.objOf [("date", .str date_iso), ("passengers", intNum passengers)]
      | _, _ => tsaWindowScan rs

def tsaTables : List (List (List String)) → Json
  | [] => .null
  | t :: rest =>
    if t.length < 2 then tsaTables rest
    else if !pyContains (tsaHeaderText t) "date" then tsaTables rest
    else
      match tsaWindowScan ((t.drop 1).take 3) with
      | .null => tsaTables rest
      | j => j

def parse_tsa_latest (tables : List (List (List String))) : Json :=
  if tables.isEmpty then .null else tsaTables tables

/-! ## App Store chart parsing (source lines 68-131)

An anchor (an `<a href=...>` element) is modelled by its `href`, the
`get_text(" ", strip=True)` of a nested `h3`/`h2` heading when one exists,
and its own `get_text(" ", strip=True)`. -/

structure Anchor where
  href : String
  heading : Option String
  text : String
deriving Repr

/-- Model of `re.match(r"^(\d+)\s", text)`: a leading digit run followed by one
whitespace character; returns the rank. -/
def leadingRank (s : String) : Option Nat :=
  let ds := s.data.takeWhile isDigitChar
  match s.data.drop ds.length with
  | c :: _ => if ds ≠ [] && isSpaceChar c then some (digitsToNat ds) else none
  | [] => none

/-- Model of `re.sub(r"\s+View$", "", text, flags=re.IGNORECASE)`: drop a trailing
`View` (any case) together with the whitespace run before it. -/
def stripViewSuffix (s : String) : String :=
  let r := s.data.reverse
  if (r.take 4).map toLowerChar == ['w', 'e', 'i', 'v'] then
    let r2 := r.drop 4
    let r3 := r2.dropWhile isSpaceChar
    if r3.length == r2.length then s else ⟨r3.reverse⟩
  else s

/-- Model of `re.match(r"^(\d+)\s+(.+)$", text)`: digits, a whitespace run, and a
nonempty newline-free remainder (`$` also matches before one final
newline). -/
def rankRest (s : String) : Option (Nat × String) :=
  let ds := s.data.takeWhile isDigitChar
  let after := s.data.drop ds.length
  let ws := after.takeWhile isSpaceChar
  let rest := after.drop ws.length
  let body := if rest.getLast? == some '\n' then rest.dropLast else rest
  if ds ≠ [] && ws ≠ [] && body ≠ [] && !body.contains '\n' && body == rest then
    some (digitsToNat ds, ⟨rest⟩)
  else if ds ≠ [] && ws ≠ [] && body ≠ [] && !body.contains '\n' then
    some (digitsToNat ds, ⟨body⟩)
  else none

def extract_app_name_from_anchor (a : Anchor) : Option String :=
  match a.heading with
  | some nm => if nm == "" then none else some nm   -- `return name or None`
  | none =>
    let text := collapseWs a.text
    match leadingRank text with
    | none => none                                  -- `if not re.match(...)`
    | some _ =>
      let text2 := pyStrip (stripViewSuffix text)
      match rankRest text2 with
      | none => none
      | some (_, rest) =>
        let words := pyWords (pyStrip rest)
        if words.isEmpty then none
        else some (pyStrip (joinSep " " (words.take 6)))

/-- The candidate pass of `parse_chart_topN`: anchors whose href signals an
app page, whose collapsed text starts with an in-range rank, and whose
name resolves nonempty. -/
def chartCandidates (anchors : List Anchor) (ranks : List Nat) :
    List (Nat × String) :=
  anchors.filterMap (fun a =>
    if !(pyContains a.href "/app/" && pyContains a.href "id") then none
    else
      let text := collapseWs a.text
      match leadingRank text with
      | none => none
      | some rank =>
        if !ranks.contains rank then none
        else
          match extract_app_name_from_anchor a with
          | none => none
          | some name => if name == "" then none else some (rank, name))

/-- The `by_rank` pass: first-seen name per rank, in encounter order. -/
def byRankFirst (cands : List (Nat × String)) : List (Nat × String) :=
  cands.foldl
    (fun acc rn => if acc.any (fun p => p.1 == rn.1) then acc else acc ++ [rn])
    []

def parse_chart_topN (anchors : List Anchor) (ranks : List Nat) : List Json :=
  let by_rank := byRankFirst (chartCandidates anchors ranks)
  ranks.filterMap (fun r =>
    (by_rank.find? (fun p => p.1 == r)).map (fun p =>
      Json.objOf [("rank", intNum (Int.ofNat r)), ("name", .str p.2)]))

/-! ## UTF-8 decoding (model of `Path.read_text(encoding="utf-8")`)

Strict decoding: continuation bytes checked, overlong encodings,
surrogates and out-of-range code points rejected. -/

def utf8Cont (b : Nat) : Bool := 0x80 ≤ b && b ≤ 0xBF

def utf8Decode : List Nat → Option (List Char)
  | [] => some []
  | b :: rest =>
    if b ≤ 0x7F then (utf8Decode rest).map (fun cs => Char.ofNat b :: cs)
    else if b < 0xC2 then none
    else if b ≤ 0xDF then
      match rest with
      | b1 :: rest2 =>
        if utf8Cont b1 then
          (utf8Decode rest2).map (fun cs =>
            Char.ofNat ((b - 0xC0) * 64 + (b1 - 0x80)) :: cs)
        else none
      | [] => none
    else if b ≤ 0xEF then
      match rest with
      | b1 :: b2 :: rest2 =>
        if utf8Cont b1 && utf8Cont b2 then
          let cp := (b - 0xE0) * 4096 + (b1 - 0x80) * 64 + (b2 - 0x80)
          if cp < 0x800 || (0xD800 ≤ cp && cp ≤ 0xDFFF) then none
          else (utf8Decode rest2).map (fun cs => Char.ofNat cp :: cs)
        else none
      | _ => none
    else if b ≤ 0xF4 then
      match rest with
      | b1 :: b2 :: b3 :: rest2 =>
        if utf8Cont b1 && utf8Cont b2 && utf8Cont b3 then
          let cp := (b - 0xF0) * 262144 + (b1 - 0x80) * 4096 +
                    (b2 - 0x80) * 64 + (b3 - 0x80)
          if cp < 0x10000 || 0x10FFFF < cp then none
          else (utf8Decode rest2).map (fun cs => Char.ofNat cp :: cs)
        else none
      | _ => none
    else none

/-! ## `json.loads` (model)

A fuel-indexed recursive-descent parser for the JSON grammar (strict mode:
no `NaN`/`Infinity` extensions, control characters rejected inside
strings, lone surrogate escapes rejected).  Numbers are exact decimals;
duplicate object keys keep the first position and the last value, as a
Python dict does.  `none` models a raised `JSONDecodeError`. -/

def isJsonWs (c : Char) : Bool :=
  c == ' ' || c == '\t' || c == '\n' || c == '\r'

def hexVal : Char → Option Nat
  | c =>
    if isDigitChar c then some (digitVal c)
    else if 'a' ≤ c && c ≤ 'f' then some (c.toNat - 87)
    else if 'A' ≤ c && c ≤ 'F' then some (c.toNat - 55)
    else none

def escChar : Char → Option Char
  | '"' => some '"'
  | '\\' => some '\\'
  | '/' => some '/'
  | 'b' => some (Char.ofNat 8)
  | 'f' => some (Char.ofNat 12)
  | 'n' => some '\n'
  | 'r' => some '\r'
  | 't' => some '\t'
  | _ => none

/-- String contents after an opening quote; returns the decoded characters
and the remainder after the closing quote. -/
def jsonStringChars : List Char → Option (List Char × List Char)
  | [] => none
  | c :: rest =>
    if c == '"' then some ([], rest)
    else if c == '\\' then
      match rest with
      | [] => none
      | e :: rest2 =>
        if e == 'u' then
          match rest2 with
          | h1 :: h2 :: h3 :: h4 :: rest3 =>
            match hexVal h1, hexVal h2, hexVal h3, hexVal h4 with
            | some a, some b, some c2, some d =>
              let cp := ((a * 16 + b) * 16 + c2) * 16 + d
              if 0xD800 ≤ cp && cp ≤ 0xDBFF then
                match rest3 with
                | e1 :: e2 :: g1 :: g2 :: g3 :: g4 :: rest4 =>
                  if e1 == '\\' && e2 == 'u' then
                    match hexVal g1, hexVal g2, hexVal g3, hexVal g4 with
                    | some a2, some b2, some c3, some d2 =>
                      let lo := ((a2 * 16 + b2) * 16 + c3) * 16 + d2
                      if 0xDC00 ≤ lo && lo ≤ 0xDFFF then
                        let full := 0x10000 + (cp - 0xD800) * 1024 + (lo - 0xDC00)
                        (jsonStringChars rest4).map (fun p =>
                          (Char.ofNat full :: p.1, p.2))
                      else none
                    | _, _, _, _ => none
                  else none
                | _ => none
              else if 0xDC00 ≤ cp && cp ≤ 0xDFFF then none
              else (jsonStringChars rest3).map (fun p => (Char.ofNat cp :: p.1, p.2))
            | _, _, _, _ => none
          | _ => none
        else
          match escChar e with
          | some ec => (jsonStringChars rest2).map (fun p => (ec :: p.1, p.2))
          | none => none
    else if c.toNat < 0x20 then none
    else (jsonStringChars rest).map (fun p => (c :: p.1, p.2))

/-- The number grammar `-?(0|[1-9][0-9]*)(\.[0-9]+)?([eE][+-]?[0-9]+)?` as an
exact decimal. -/
def jsonNumber (cs : List Char) : Option (Json × List Char) :=
  let negp := match cs with | c :: _ => c == '-' | [] => false
  let cs1 := if negp then cs.drop 1 else cs
  let ip := cs1.takeWhile isDigitChar
  if ip.isEmpty then none
  else if 1 < ip.length && ip.headD '0' == '0' then none
  else
    let cs2 := cs1.drop ip.length
    let fracPart : Option (List Char × List Char) :=
      match cs2 with
      | '.' :: t =>
        let f := t.takeWhile isDigitChar
        if f.isEmpty then none else some (f, t.drop f.length)
      | _ => some ([], cs2)
    match fracPart with
    | none => none
    | some (frac, cs3) =>
      let expPart : Option (Int × List Char) :=
        match cs3 with
        | e :: t =>
          if e == 'e' || e == 'E' then
            let sgn : Int := match t with | '-' :: _ => -1 | _ => 1
            let t2 := match t with
              | '+' :: u => u
              | '-' :: u => u
              | _ => t
            let ed := t2.takeWhile isDigitChar
            if ed.isEmpty then none
            else some (sgn * Int.ofNat (digitsToNat ed), t2.drop ed.length)
          else some (0, cs3)
        | [] => some (0, cs3)
      match expPart with
      | none => none
      | some (ex, cs4) =>
        let mAbs := Int.ofNat (digitsToNat (ip ++ frac))
        let m := if negp then -mAbs else mAbs
        some (.num m (ex - Int.ofNat frac.length), cs4)

def kvsInsert : JsonKVs → String → Json → JsonKVs
  | .nil, k, v => .cons k v .nil
  | .cons k0 v0 tl, k, v =>
    if k0 == k then .cons k0 v tl else .cons k0 v0 (kvsInsert tl k v)

mutual
def jsonVal : Nat → List Char → Option (Json × List Char)
  | 0, _ => none
  | fuel + 1, cs =>
    match cs.dropWhile isJsonWs with
    | 'n' :: 'u' :: 'l' :: 'l' :: rest => some (.null, rest)
    | 't' :: 'r' :: 'u' :: 'e' :: rest => some (.bool true, rest)
    | 'f' :: 'a' :: 'l' :: 's' :: 'e' :: rest => some (.bool false, rest)
    | '"' :: rest =>
      (jsonStringChars rest).map (fun p => (.str ⟨p.1⟩, p.2))
    | '[' :: rest =>
      (match rest.dropWhile isJsonWs with
       | ']' :: rest2 => some (.arr .nil, rest2)
       | _ => (jsonArrayRest fuel rest).map (fun p => (.arr p.1, p.2)))
    | '{' :: rest =>
      (match rest.dropWhile isJsonWs with
       | '}' :: rest2 => some (.obj .nil, rest2)
       | _ => (jsonObjectRest fuel rest .nil).map (fun p => (.obj p.1, p.2)))
    | c :: rest =>
      if c == '-' || isDigitChar c then jsonNumber (c :: rest) else none
    | [] => none

/-- Elements of a nonempty array, starting right after `[` or `,`. -/
def jsonArrayRest : Nat → List Char → Option (JsonList × List Char)
  | 0, _ => none
  | fuel + 1, cs =>
    match jsonVal fuel cs with
    | none => none
    | some (v, cs2) =>
      match cs2.dropWhile isJsonWs with
      | ',' :: cs3 =>
        (jsonArrayRest fuel cs3).map (fun p => (.cons v p.1, p.2))
      | ']' :: cs3 => some (.cons v .nil, cs3)
      | _ => none

/-- Members of a nonempty object, starting right after `{` or `,`. -/
def jsonObjectRest : Nat → List Char → JsonKVs → Option (JsonKVs × List Char)
  | 0, _, _ => none
  | fuel + 1, cs, acc =>
    match cs.dropWhile isJsonWs with
    | '"' :: rest =>
      match jsonStringChars rest with
      | none => none
      | some (kcs, cs2) =>
        match cs2.dropWhile isJsonWs with
        | ':' :: cs3 =>
          match jsonVal fuel cs3 with
          | none => none
          | some (v, cs4) =>
            let acc2 := kvsInsert acc ⟨kcs⟩ v
            match cs4.dropWhile isJsonWs with
            | ',' :: cs5 => jsonObjectRest fuel cs5 acc2
            | '}' :: cs5 => some (acc2, cs5)
            | _ => none
        | _ => none
    | _ => none
end

def jsonParseChars (cs : List Char) : Option Json :=
  match jsonVal (cs.length + 2) cs with
  | some (v, rest) => if (rest.dropWhile isJsonWs).isEmpty then some v else none
  | none => none

/-- Model of `json.loads` on a string. -/
def jsonParse (s : String) : Option Json := jsonParseChars s.data

/-! ## `load_json` (source lines 271-277)

The state file is given as `none` (file absent) or its raw bytes; reading
decodes UTF-8 and parses JSON, and any exception yields Python `None`
(`Json.null`).  Note that a file containing the JSON literal `null` also
loads as `None`, exactly as in Python. -/

def load_json (file : Option (List Nat)) : Json :=
  match file with
  | none => .null
  | some bs =>
    match utf8Decode bs with
    | none => .null
    | some cs => (jsonParseChars cs).getD .null

/-! ## Datetimes (model of the `datetime` module)

A `datetime` is a naive wall-clock value - microseconds since
0001-01-01T00:00:00 in the proleptic Gregorian calendar (Python
resolution) - together with, when the value is timezone-aware, its
utcoffset.  `fromisoformat` is a transcription of the CPython 3.11 C
parser (`_datetimemodule.c`): it works on the UTF-8 bytes of the string,
locates the date/time separator, parses a `YYYY-MM-DD`, `YYYYMMDD` or
ISO-week date, skips one separator character, and parses the time and
optional utc offset with `parse_hh_mm_ss_ff`; a raised exception is
`none` (the caller catches it).  The model was validated exhaustively
against `datetime.fromisoformat` of CPython 3.11 on a large structured
corpus of strings. -/

def daysBeforeYear (y : Nat) : Nat :=
  365 * (y - 1) + (y - 1) / 4 - (y - 1) / 100 + (y - 1) / 400

def daysBeforeMonth (y m : Nat) : Nat :=
  [0, 31, 59, 90, 120, 151, 181, 212, 243, 273, 304, 334].getD (m - 1) 0 +
  (if 2 < m && isLeapYear y then 1 else 0)

/-- Python `date(y, m, d).toordinal()` (0001-01-01 is day 1). -/
def toOrdinal (y m d : Nat) : Nat :=
  daysBeforeYear y + daysBeforeMonth y m + d

def epochMicros (y m d h mi s us : Nat) : Int :=
  Int.ofNat ((((toOrdinal y m d - 1) * 86400 + h * 3600 + mi * 60 + s))
    * 1000000 + us)

def heartbeatIntervalUs : Int := 14400000000   -- timedelta(hours=4)

/-- A Python `datetime` value: the naive wall-clock microsecond count,
plus the utcoffset in microseconds when the value is timezone-aware. -/
structure PyDatetime where
  ts : Int
  off : Option Int
deriving Repr, DecidableEq

/-- UTF-8 encoding of one character. -/
def utf8EncodeChar (c : Char) : List Nat :=
  let n := c.toNat
  if n < 0x80 then [n]
  else if n < 0x800 then [0xC0 + n / 64, 0x80 + n % 64]
  else if n < 0x10000 then
    [0xE0 + n / 4096, 0x80 + n / 64 % 64, 0x80 + n % 64]
  else [0xF0 + n / 262144, 0x80 + n / 4096 % 64, 0x80 + n / 64 % 64,
    0x80 + n % 64]

def utf8Encode (cs : List Char) : List Nat :=
  (cs.map utf8EncodeChar).flatten

/-- Reading a byte of the NUL-terminated buffer, as the C parser does: a
position at or beyond the end reads `0`. -/
def bAt (bs : List Nat) (i : Nat) : Nat := bs.getD i 0

def isDigitByte (b : Nat) : Bool := 48 ≤ b && b ≤ 57

/-- Model of `parse_digits`: exactly `n` ASCII digits at `pos`. -/
def digitsValB (bs : List Nat) (pos n : Nat) : Option Nat :=
  if (List.range n).all (fun i => isDigitByte (bAt bs (pos + i))) then
    some ((List.range n).foldl (fun acc i => acc * 10 + (bAt bs (pos + i) - 48)) 0)
  else none

/-- The digit scan of the `YYYYWww...` branch of
`find_isoformat_datetime_separator`. -/
def wDigitScan (bs : List Nat) (L : Nat) : Nat → Nat → Nat
  | 0, idx => idx
  | fuel + 1, idx =>
    if idx < L && isDigitByte (bAt bs idx) then wDigitScan bs L fuel (idx + 1)
    else idx

/-- Model of `find_isoformat_datetime_separator` (byte position where the
date part ends; the byte there, if any, is the datetime separator). -/
def findIsoSep (bs : List Nat) (L : Nat) : Option Nat :=
  if L == 7 then some 7
  else if bAt bs 4 == 45 then
    if bAt bs 5 == 87 then
      if L > 8 && bAt bs 8 == 45 then
        if L == 9 then none
        else if L > 10 && isDigitByte (bAt bs 10) then some 8
        else some 10
      else some 8
    else some 10
  else
    if bAt bs 4 == 87 then
      let idx := wDigitScan bs L L 7
      if idx < 9 then some idx
      else if idx % 2 == 0 then some 7 else some 8
    else some 8

/-- Python `date(y, 1, 1).toordinal()` of the Monday starting ISO week 1
(helper `_isoweek1monday`). -/
def iso_week1_monday (y : Nat) : Int :=
  let firstday : Int := Int.ofNat (toOrdinal y 1 1)
  let firstweekday := (firstday + 6) % 7
  let w1m := firstday - firstweekday
  if 3 < firstweekday then w1m + 7 else w1m

/-- Days since 1970-01-01 to a (year, month, day) civil date, proleptic
Gregorian (closed-form conversion). -/
def civilFromDays (z0 : Int) : Int × Int × Int :=
  let z := z0 + 719468
  let era := Int.fdiv z 146097
  let doe := z - era * 146097
  let yoe := (doe - doe / 1460 + doe / 36524 - doe / 146096) / 365
  let y := yoe + era * 400
  let doy := doe - (365 * yoe + yoe / 4 - yoe / 100)
  let mp := (5 * doy + 2) / 153
  let d := doy - (153 * mp + 2) / 5 + 1
  let m := mp + (if mp < 10 then 3 else -9)
  (y + (if m ≤ 2 then 1 else 0), m, d)

/-- Model of `_isoweek_to_gregorian` / `iso_to_ymd`: an ISO year, week and
weekday to a civil date. -/
def iso_to_ymd (y w d : Nat) : Option (Nat × Nat × Nat) :=
  if y < 1 || 9999 < y then none
  else
    let fw := toOrdinal y 1 1 % 7
    let ok53 := fw == 4 || (fw == 3 && isLeapYear y)
    if !(1 ≤ w && (w ≤ 52 || (w == 53 && ok53))) then none
    else if !(1 ≤ d && d ≤ 7) then none
    else
      let ord : Int := iso_week1_monday y + Int.ofNat ((w - 1) * 7 + (d - 1))
      let ymd := civilFromDays (ord - 719163)
      some (ymd.1.toNat, ymd.2.1.toNat, ymd.2.2.toNat)

/-- Model of `parse_isoformat_date` on the byte buffer (the date part runs
up to `dateLen`). -/
def parseIsoDate (bs : List Nat) (dateLen : Nat) : Option (Nat × Nat × Nat) :=
  match digitsValB bs 0 4 with
  | none => none
  | some y =>
    let usesSep := bAt bs 4 == 45
    let pos := if usesSep then 5 else 4
    if bAt bs pos == 87 then
      match digitsValB bs (pos + 1) 2 with
      | none => none
      | some w =>
        let pos2 := pos + 3
        if pos2 < dateLen then
          if usesSep then
            if bAt bs pos2 == 45 then
              match digitsValB bs (pos2 + 1) 1 with
              | some d => iso_to_ymd y w d
              | none => none
            else none
          else
            match digitsValB bs pos2 1 with
            | some d => iso_to_ymd y w d
            | none => none
        else iso_to_ymd y w 1
    else
      match digitsValB bs pos 2 with
      | none => none
      | some mo =>
        let pos2 := pos + 2
        if usesSep then
          if bAt bs pos2 == 45 then
            match digitsValB bs (pos2 + 1) 2 with
            | some d => some (y, mo, d)
            | none => none
          else none
        else
          match digitsValB bs pos2 2 with
          | some d => some (y, mo, d)
          | none => none

/-- The `HH[:MM[:SS]]` loop of `parse_hh_mm_ss_ff`: up to three
two-digit components; yields the components (reversed), then either the
position where fraction parsing continues, or the `rv` flag of an exact
ending (`true` when the byte read past the components was not NUL). -/
def phmsLoop (bs : List Nat) (pend : Nat) :
    Nat → Nat → Bool → List Nat → Option (List Nat × Option Nat × Bool)
  | 0, p, _, acc => some (acc, some p, false)
  | fuel + 1, p, hasSep, acc =>
    match digitsValB bs p 2 with
    | none => none
    | some v =>
      let c := bAt bs (p + 2)
      let p3 := p + 3
      let hs := if acc.isEmpty then c == 58 else hasSep
      if pend ≤ p3 then some (v :: acc, none, c != 0)
      else if hs && c == 58 then phmsLoop bs pend fuel p3 hs (v :: acc)
      else if c == 46 || c == 44 then some (v :: acc, some p3, false)
      else if !hs then phmsLoop bs pend fuel (p3 - 1) hs (v :: acc)
      else none

/-- Model of `parse_hh_mm_ss_ff` on the byte range `[pstart, pend)`:
hour, minute, second, microsecond, and the `rv` flag (also set when a
non-digit byte follows a full six-digit fraction; the flag is fatal only
where the caller checks it). -/
def parseHMSFF (bs : List Nat) (pstart pend : Nat) :
    Option (Nat × Nat × Nat × Nat × Bool) :=
  match phmsLoop bs pend 3 pstart false [] with
  | none => none
  | some (acc, fracPos, rv) =>
    let vals := acc.reverse
    let h := vals.getD 0 0
    let m := vals.getD 1 0
    let sec := vals.getD 2 0
    match fracPos with
    | none => some (h, m, sec, 0, rv)
    | some p =>
      let lenRem := pend - p
      let toParse := min 6 lenRem
      match digitsValB bs p toParse with
      | none => none
      | some us0 =>
        let us := us0 * 10 ^ (6 - toParse)
        let junk := !((List.range (lenRem - toParse)).all
          (fun i => isDigitByte (bAt bs (p + toParse + i))))
        some (h, m, sec, us, junk)

/-- First byte position in `[i, i + fuel)` holding `Z`, `+` or `-`. -/
def findTzPos (bs : List Nat) : Nat → Nat → Option Nat
  | 0, _ => none
  | fuel + 1, i =>
    let b := bAt bs i
    if b == 90 || b == 43 || b == 45 then some i
    else findTzPos bs fuel (i + 1)

/-- Model of `parse_isoformat_time` on the byte range `[tstart, pend)`:
hour, minute, second, microsecond, and the utcoffset in microseconds when
an offset is present.  An offset whose hour/minute/second part is zero
collapses to UTC, dropping its fractional part, as the C parser does. -/
def parseIsoTime (bs : List Nat) (tstart pend : Nat) :
    Option (Nat × Nat × Nat × Nat × Option Int) :=
  if pend ≤ tstart then none
  else
    match findTzPos bs (pend - tstart) tstart with
    | none =>
      match parseHMSFF bs tstart pend with
      | none => none
      | some (h, m, sec, us, rv) =>
        if rv then none else some (h, m, sec, us, none)
    | some tzpos =>
      match parseHMSFF bs tstart tzpos with
      | none => none
      | some (h, m, sec, us, _) =>
        if bAt bs tzpos == 90 then
          if tzpos + 1 == pend then some (h, m, sec, us, some 0) else none
        else
          let sgn : Int := if bAt bs tzpos == 45 then -1 else 1
          let tzlen := pend - (tzpos + 1)
          if tzlen == 0 || tzlen == 1 || tzlen == 3 then none
          else
            match parseHMSFF bs (tzpos + 1) pend with
            | none => none
            | some (th, tm, tsec, tus, trv) =>
              if trv then none
              else
                let tsecs := th * 3600 + tm * 60 + tsec
                if tsecs == 0 then some (h, m, sec, us, some 0)
                else
                  let offAbs : Int := Int.ofNat (tsecs * 1000000 + tus)
                  some (h, m, sec, us, some (sgn * offAbs))

/-- Byte length of the UTF-8 character starting with byte `b`. -/
def charLenB (b : Nat) : Nat :=
  if b < 0x80 then 1 else if b < 0xE0 then 2 else if b < 0xF0 then 3 else 4

/-- Model of `datetime.fromisoformat` (CPython 3.11); `none` when it
raises.  The date is parsed up to the separator position, one separator
character is skipped, the rest is the time and optional offset, and the
`datetime` / `timezone` constructors bound the fields (hour to 23, minute
and second to 59, the total offset strictly under 24 hours). -/
def fromisoformat (s : String) : Option PyDatetime :=
  let bs := utf8Encode s.data
  let L := bs.length
  if L < 7 then none
  else
    match findIsoSep bs L with
    | none => none
    | some sep =>
      match parseIsoDate bs sep with
      | none => none
      | some (y, mo, d) =>
        if !(1 ≤ y && y ≤ 9999 && 1 ≤ mo && mo ≤ 12 && 1 ≤ d &&
            d ≤ daysInMonth y mo) then none
        else if L ≤ sep then some ⟨epochMicros y mo d 0 0 0 0, none⟩
        else
          let tstart := sep + charLenB (bAt bs sep)
          match parseIsoTime bs tstart L with
          | none => none
          | some (h, m, sec, us, off) =>
            if h ≤ 23 && m ≤ 59 && sec ≤ 59 && us ≤ 999999 then
              match off with
              | none => some ⟨epochMicros y mo d h m sec us, none⟩
              | some o =>
                if -86400000000 < o && o < 86400000000 then
                  some ⟨epochMicros y mo d h m sec us, some o⟩
                else none
            else none

/-- Model of `dt.isoformat()`: microseconds are printed only when nonzero. -/
def isoformat (t : Int) : String :=
  let us := (t.emod 1000000).toNat
  let secs := Int.fdiv t 1000000
  let sod := (secs.emod 86400).toNat
  let days := Int.fdiv secs 86400
  let ymd := civilFromDays (days - 719162)
  padZeros 4 ymd.1.toNat ++ "-" ++ padZeros 2 ymd.2.1.toNat ++ "-" ++
    padZeros 2 ymd.2.2.toNat ++ "T" ++ padZeros 2 (sod / 3600) ++ ":" ++
    padZeros 2 (sod / 60 % 60) ++ ":" ++ padZeros 2 (sod % 60) ++
    (if us == 0 then "" else "." ++ padZeros 6 us)

/-! ## `load_last_heartbeat` (source lines 285-295)

Takes the already-loaded heartbeat record (`load_json` of the heartbeat
state file); yields the stored datetime, or `none` for a missing /
non-dict / falsy-`ts` / unparsable record (every exception is caught).
The result may be timezone-aware when the stored string carries an
offset. -/

def load_last_heartbeat (data : Json) : Option PyDatetime :=
  if !isDict data then none
  else
    let ts := dictGet data "ts"
    if !pyTruthy ts then none
    else
      match ts with
      | .str s => fromisoformat s
      | _ => none

/-! ## The orchestrator `main` (source lines 360-507)

`Env` is everything `main` observes: the DOM of the two chart pages, the
fetch results of the three optional sources (`none` = the fetch raised
inside the `try`), the five previously persisted records as loaded by
`load_json` at lines 362-366, the heartbeat record as loaded at line 427,
and the clock value `datetime.utcnow()` read at line 426.

`RunResult` is everything `main` effects: the exit status (`none` models
an uncaught exception escaping `main`), the record written to each state
file (`none` = the file was left untouched), and which notifications were
sent. -/

structure Env where
  freeAnchors : List Anchor
  paidAnchors : List Anchor
  tsaFetch : Option (List (List (List String)))
  approvalFetch : Option String
  trumpFetch : Option String
  prevFree : Json
  prevPaid : Json
  prevTsa : Json
  prevApproval : Json
  prevTrump : Json
  heartbeatJson : Json
  now : Int

structure RunResult where
  exit : Option Nat
  freeWrite : Option Json
  paidWrite : Option Json
  tsaWrite : Option Json
  approvalWrite : Option Json
  trumpWrite : Option Json
  hbWrite : Option Json
  hbSent : Bool
  freeAlert : Bool
  paidAlert : Bool
  tsaAlert : Bool
  approvalAlert : Bool
  trumpAlert : Bool
deriving Repr

/-- The outcome of `return 1` on a failed mandatory source: nothing has
been written and nothing sent. -/
def failRun : RunResult :=
  ⟨some 1, none, none, none, none, none, none, false, false, false, false,
   false, false⟩

/-- The block `try: tsa_latest = parse_tsa_latest(fetch_html(TSA_URL)) except:`:
a raised fetch leaves `tsa_latest = None`. -/
def extractTsa : Option (List (List (List String))) → Json
  | none => .null
  | some tables => parse_tsa_latest tables

/-- The same pattern for the two approval CSV feeds. -/
def extractApproval : Option String → Json
  | none => .null
  | some text => parse_latest_approval_from_csv text

/-- The App Store change-alert blocks (source lines 457-483 use
`format_ranked_list`, which evaluates `x["rank"]` and `x["name"]` for
every element of the stored list): an element of the previously stored
list is formattable only when it is a dict carrying both keys. -/
def rankedItemOk : Json → Bool
  | .obj kvs => (kvsLookup kvs "rank").isSome && (kvsLookup kvs "name").isSome
  | _ => false

def rankedListOk : JsonList → Bool
  | .nil => true
  | .cons x tl => rankedItemOk x && rankedListOk tl

/-- One App Store change-alert block: `some b` with `b` = "alert sent";
`none` models the TypeError/KeyError raised by
`format_ranked_list(prev)` when the alert fires on an ill-typed stored
list (uncaught in `main`).  The freshly parsed `current` list is always
formattable. -/
def rankedAlertCalc (prev : Json) (current : List Json) : Option Bool :=
  if isList prev && !pyEq prev (Json.arrOf current) then
    match prev with
    | .arr l => if rankedListOk l then some true else none
    | _ => none
  else some false

/-- The heartbeat gate at source line 433
(`last_heartbeat is None or now - last_heartbeat >= HEARTBEAT_INTERVAL`):
`some b` with `b` = "the heartbeat is due"; `none` models the TypeError
raised by subtracting a timezone-aware stored datetime from the naive
`datetime.utcnow()` (uncaught in `main`). -/
def heartbeatCalc (last : Option PyDatetime) (now : Int) : Option Bool :=
  match last with
  | none => some true
  | some dt =>
    match dt.off with
    | none => some (decide (heartbeatIntervalUs ≤ now - dt.ts))
    | some _ => none

/-- The TSA date-change alert block (source lines 486-501): `some b` with
`b` = "alert sent"; `none` models `int(...)` raising while formatting the
message (only reachable from an ill-typed stored record). -/
def tsaAlertCalc (prev latest : Json) : Option Bool :=
  if pyTruthy latest && isDict prev then
    let prev_date := dictGet prev "date"
    let new_date := dictGet latest "date"
    if pyTruthy prev_date && pyTruthy new_date && !pyEq prev_date new_date then
      match pyIntOf (dictGetD prev "passengers" (intNum 0)),
            pyIntOf (dictGetD latest "passengers" (intNum 0)) with
      | some _, some _ => some true
      | _, _ => none
    else some false
  else some false

/-- Sequencing of the five fallible alert blocks at the end of `main`
(Free, Paid, TSA, Approval, Trump, in source order): the first exception
aborts the remaining blocks and the final `return 0`.  Yields
(exit status, free/paid/tsa/approval/trump alert). -/
def alertsSeq (freeRes paidRes tsaRes apprRes trumpRes : Option Bool) :
    Option Nat × Bool × Bool × Bool × Bool × Bool :=
  match freeRes with
  | none => (none, false, false, false, false, false)
  | some f =>
    match paidRes with
    | none => (none, f, false, false, false, false)
    | some p =>
      match tsaRes with
      | none => (none, f, p, false, false, false)
      | some t =>
        match apprRes with
        | none => (none, f, p, t, false, false)
        | some a =>
          match trumpRes with
          | none => (none, f, p, t, a, false)
          | some tr => (some 0, f, p, t, a, tr)

/-- The whole tail of `main` after the state writes: the heartbeat gate
runs first (line 433) and a TypeError there skips every alert block as
well as the final `return 0`. -/
def runTail (hbRes freeRes paidRes tsaRes apprRes trumpRes : Option Bool) :
    Option Nat × Bool × Bool × Bool × Bool × Bool :=
  match hbRes with
  | none => (none, false, false, false, false, false)
  | some _ => alertsSeq freeRes paidRes tsaRes apprRes trumpRes

def mainCore (env : Env) : RunResult :=
  -- ---- App Store: FREE top 3 ----
  let free_top3 := parse_chart_topN env.freeAnchors [1, 2, 3]
  if free_top3.length < 3 then failRun
  else
    -- ---- App Store: PAID top 1 ----
    let paid_top1 := parse_chart_topN env.paidAnchors [1]
    if paid_top1.length < 1 then failRun
    else
      -- ---- TSA / Approval / Trump: persist only truthy extractions ----
      let tsa_latest := extractTsa env.tsaFetch
      let approval_latest := extractApproval env.approvalFetch
      let trump_latest := extractApproval env.trumpFetch
      let tsaWrite := if pyTruthy tsa_latest then some tsa_latest else none
      let approvalWrite :=
        if pyTruthy approval_latest then some approval_latest else none
      let trumpWrite :=
        if pyTruthy trump_latest then some trump_latest else none
      -- ---- Heartbeat (once every 4 hours) ----
      let last_hb := load_last_heartbeat env.heartbeatJson
      let hbRes := heartbeatCalc last_hb env.now
      let hbSent := hbRes.getD false
      let hbWrite :=
        match hbRes with
        | none => none
        | some sent =>
          if sent then some (Json.objOf [("ts", .str (isoformat env.now))])
          else none
      -- ---- Change alerts ----
      let s := runTail hbRes
        (rankedAlertCalc env.prevFree free_top3)
        (rankedAlertCalc env.prevPaid paid_top1)
        (tsaAlertCalc env.prevTsa tsa_latest)
        (maybe_send_approval_alert env.prevApproval approval_latest)
        (maybe_send_approval_alert env.prevTrump trump_latest)
      { exit := s.1
        freeWrite := some (Json.arrOf free_top3)
        paidWrite := some (Json.arrOf paid_top1)
        tsaWrite := tsaWrite
        approvalWrite := approvalWrite
        trumpWrite := trumpWrite
        hbWrite := hbWrite
        hbSent := hbSent
        freeAlert := s.2.1
        paidAlert := s.2.2.1
        tsaAlert := s.2.2.2.1
        approvalAlert := s.2.2.2.2.1
        trumpAlert := s.2.2.2.2.2 }

/-! ## Helper lemmas about `mainCore` -/

theorem mainCore_short (env : Env)
    (h : (parse_chart_topN env.freeAnchors [1, 2, 3]).length < 3 ∨
         (parse_chart_topN env.paidAnchors [1]).length < 1) :
    mainCore env = failRun := by
  unfold mainCore
  rcases h with h | h
  · rw [if_pos h]
  · by_cases h1 : (parse_chart_topN env.freeAnchors [1, 2, 3]).length < 3
    · rw [if_pos h1]
    · rw [if_neg h1, if_pos h]

/-- The alert tail of a completed run, as a function of the environment. -/
def runTailOf (env : Env) : Option Nat × Bool × Bool × Bool × Bool × Bool :=
  runTail (heartbeatCalc (load_last_heartbeat env.heartbeatJson) env.now)
    (rankedAlertCalc env.prevFree (parse_chart_topN env.freeAnchors [1, 2, 3]))
    (rankedAlertCalc env.prevPaid (parse_chart_topN env.paidAnchors [1]))
    (tsaAlertCalc env.prevTsa (extractTsa env.tsaFetch))
    (maybe_send_approval_alert env.prevApproval
      (extractApproval env.approvalFetch))
    (maybe_send_approval_alert env.prevTrump (extractApproval env.trumpFetch))

theorem mainCore_exit_run (env : Env)
    (h1 : ¬ (parse_chart_topN env.freeAnchors [1, 2, 3]).length < 3)
    (h2 : ¬ (parse_chart_topN env.paidAnchors [1]).length < 1) :
    (mainCore env).exit = (runTailOf env).1 := by
  unfold mainCore runTailOf
  rw [if_neg h1, if_neg h2]

theorem mainCore_tsaWrite_run (env : Env)
    (h1 : ¬ (parse_chart_topN env.freeAnchors [1, 2, 3]).length < 3)
    (h2 : ¬ (parse_chart_topN env.paidAnchors [1]).length < 1) :
    (mainCore env).tsaWrite =
      (if pyTruthy (extractTsa env.tsaFetch) then some (extractTsa env.tsaFetch)
       else none) := by
  unfold mainCore
  rw [if_neg h1, if_neg h2]

theorem mainCore_approvalWrite_run (env : Env)
    (h1 : ¬ (parse_chart_topN env.freeAnchors [1, 2, 3]).length < 3)
    (h2 : ¬ (parse_chart_topN env.paidAnchors [1]).length < 1) :
    (mainCore env).approvalWrite =
      (if pyTruthy (extractApproval env.approvalFetch)
       then some (extractApproval env.approvalFetch) else none) := by
  unfold mainCore
  rw [if_neg h1, if_neg h2]

theorem mainCore_trumpWrite_run (env : Env)
    (h1 : ¬ (parse_chart_topN env.freeAnchors [1, 2, 3]).length < 3)
    (h2 : ¬ (parse_chart_topN env.paidAnchors [1]).length < 1) :
    (mainCore env).trumpWrite =
      (if pyTruthy (extractApproval env.trumpFetch)
       then some (extractApproval env.trumpFetch) else none) := by
  unfold mainCore
  rw [if_neg h1, if_neg h2]

theorem mainCore_freeWrite_run (env : Env)
    (h1 : ¬ (parse_chart_topN env.freeAnchors [1, 2, 3]).length < 3)
    (h2 : ¬ (parse_chart_topN env.paidAnchors [1]).length < 1) :
    (mainCore env).freeWrite =
      some (Json.arrOf (parse_chart_topN env.freeAnchors [1, 2, 3])) := by
  unfold mainCore
  rw [if_neg h1, if_neg h2]

theorem mainCore_paidWrite_run (env : Env)
    (h1 : ¬ (parse_chart_topN env.freeAnchors [1, 2, 3]).length < 3)
    (h2 : ¬ (parse_chart_topN env.paidAnchors [1]).length < 1) :
    (mainCore env).paidWrite =
      some (Json.arrOf (parse_chart_topN env.paidAnchors [1])) := by
  unfold mainCore
  rw [if_neg h1, if_neg h2]

theorem mainCore_hbSent_run (env : Env)
    (h1 : ¬ (parse_chart_topN env.freeAnchors [1, 2, 3]).length < 3)
    (h2 : ¬ (parse_chart_topN env.paidAnchors [1]).length < 1) :
    (mainCore env).hbSent =
      (heartbeatCalc (load_last_heartbeat env.heartbeatJson) env.now).getD
        false := by
  unfold mainCore
  rw [if_neg h1, if_neg h2]

theorem mainCore_hbWriteRaw_run (env : Env)
    (h1 : ¬ (parse_chart_topN env.freeAnchors [1, 2, 3]).length < 3)
    (h2 : ¬ (parse_chart_topN env.paidAnchors [1]).length < 1) :
    (mainCore env).hbWrite =
      (match heartbeatCalc (load_last_heartbeat env.heartbeatJson) env.now with
       | none => none
       | some sent =>
         if sent then some (Json.objOf [("ts", .str (isoformat env.now))])
         else none) := by
  unfold mainCore
  rw [if_neg h1, if_neg h2]

theorem mainCore_hbWrite_run (env : Env)
    (h1 : ¬ (parse_chart_topN env.freeAnchors [1, 2, 3]).length < 3)
    (h2 : ¬ (parse_chart_topN env.paidAnchors [1]).length < 1) :
    (mainCore env).hbWrite =
      (if (mainCore env).hbSent
       then some (Json.objOf [("ts", .str (isoformat env.now))]) else none) := by
  rw [mainCore_hbWriteRaw_run env h1 h2, mainCore_hbSent_run env h1 h2]
  cases heartbeatCalc (load_last_heartbeat env.heartbeatJson) env.now with
  | none => rfl
  | some sent => cases sent <;> rfl

theorem mainCore_freeAlert_run (env : Env)
    (h1 : ¬ (parse_chart_topN env.freeAnchors [1, 2, 3]).length < 3)
    (h2 : ¬ (parse_chart_topN env.paidAnchors [1]).length < 1) :
    (mainCore env).freeAlert = (runTailOf env).2.1 := by
  unfold mainCore runTailOf
  rw [if_neg h1, if_neg h2]

theorem mainCore_paidAlert_run (env : Env)
    (h1 : ¬ (parse_chart_topN env.freeAnchors [1, 2, 3]).length < 3)
    (h2 : ¬ (parse_chart_topN env.paidAnchors [1]).length < 1) :
    (mainCore env).paidAlert = (runTailOf env).2.2.1 := by
  unfold mainCore runTailOf
  rw [if_neg h1, if_neg h2]

theorem mainCore_tsaAlert_run (env : Env)
    (h1 : ¬ (parse_chart_topN env.freeAnchors [1, 2, 3]).length < 3)
    (h2 : ¬ (parse_chart_topN env.paidAnchors [1]).length < 1) :
    (mainCore env).tsaAlert = (runTailOf env).2.2.2.1 := by
  unfold mainCore runTailOf
  rw [if_neg h1, if_neg h2]

theorem mainCore_approvalAlert_run (env : Env)
    (h1 : ¬ (parse_chart_topN env.freeAnchors [1, 2, 3]).length < 3)
    (h2 : ¬ (parse_chart_topN env.paidAnchors [1]).length < 1) :
    (mainCore env).approvalAlert = (runTailOf env).2.2.2.2.1 := by
  unfold mainCore runTailOf
  rw [if_neg h1, if_neg h2]

theorem mainCore_trumpAlert_run (env : Env)
    (h1 : ¬ (parse_chart_topN env.freeAnchors [1, 2, 3]).length < 3)
    (h2 : ¬ (parse_chart_topN env.paidAnchors [1]).length < 1) :
    (mainCore env).trumpAlert = (runTailOf env).2.2.2.2.2 := by
  unfold mainCore runTailOf
  rw [if_neg h1, if_neg h2]

/-! ## Helper lemmas about alerts and extracted fact shapes -/

theorem writeOpt_none_of_null (x : Json) (h : x = Json.null) :
    (if pyTruthy x then some x else none) = none := by
  subst h; rfl

theorem writeOpt_some_inv (x j : Json)
    (hj : (if pyTruthy x then some x else none) = some j) :
    j = x ∧ j ≠ Json.null := by
  by_cases h : pyTruthy x
  · rw [if_pos h] at hj
    cases hj
    refine ⟨rfl, fun hn => ?_⟩
    rw [hn] at h
    exact absurd h (by decide)
  · rw [if_neg h] at hj
    exact Option.noConfusion hj

theorem maybe_send_null_prev (latest : Json) :
    maybe_send_approval_alert Json.null latest = some false := by
  unfold maybe_send_approval_alert
  simp [isDict]

theorem tsaAlertCalc_null_prev (latest : Json) :
    tsaAlertCalc Json.null latest = some false := by
  unfold tsaAlertCalc
  simp [isDict]

theorem rankedAlertCalc_null_prev (current : List Json) :
    rankedAlertCalc Json.null current = some false := rfl

theorem runTail_free_of_false (hb a b c d e : Option Bool)
    (h : a = some false) : (runTail hb a b c d e).2.1 = false := by
  subst h; cases hb <;> cases b <;> cases c <;> cases d <;> cases e <;> rfl

theorem runTail_paid_of_false (hb a b c d e : Option Bool)
    (h : b = some false) : (runTail hb a b c d e).2.2.1 = false := by
  subst h; cases hb <;> cases a <;> cases c <;> cases d <;> cases e <;> rfl

theorem runTail_tsa_of_false (hb a b c d e : Option Bool)
    (h : c = some false) : (runTail hb a b c d e).2.2.2.1 = false := by
  subst h; cases hb <;> cases a <;> cases b <;> cases d <;> cases e <;> rfl

theorem runTail_appr_of_false (hb a b c d e : Option Bool)
    (h : d = some false) : (runTail hb a b c d e).2.2.2.2.1 = false := by
  subst h; cases hb <;> cases a <;> cases b <;> cases c <;> cases e <;> rfl

theorem runTail_trump_of_false (hb a b c d e : Option Bool)
    (h : e = some false) : (runTail hb a b c d e).2.2.2.2.2 = false := by
  subst h; cases hb <;> cases a <;> cases b <;> cases c <;> cases d <;> rfl

theorem runTail_exit_ne_one (hb a b c d e : Option Bool) :
    (runTail hb a b c d e).1 ≠ some 1 := by
  cases hb <;> cases a <;> cases b <;> cases c <;> cases d <;> cases e <;>
    simp [runTail, alertsSeq]

theorem runTail_exit_of_isSome (hb a b c d e : Option Bool)
    (hhb : hb.isSome) (ha : a.isSome) (hb2 : b.isSome) (hc : c.isSome)
    (hd : d.isSome) (he : e.isSome) :
    (runTail hb a b c d e).1 = some 0 := by
  cases hb <;> cases a <;> cases b <;> cases c <;> cases d <;> cases e <;>
    simp_all [runTail, alertsSeq]

theorem orEmptyStrip_str (s : String) :
    orEmptyStrip (.str s) = some (pyStrip s) := by
  unfold orEmptyStrip
  by_cases h : s = ""
  · subst h; rfl
  · simp [pyTruthy, h]

theorem strOf_or_strip (s : String) :
    pyStrip (pyStrOf (pyOr (.str s) (.str ""))) = pyStrip s := by
  unfold pyOr
  by_cases h : s = ""
  · subst h; rfl
  · simp [pyTruthy, h, pyStrOf]

/-- Shape of a fact produced by the approval-CSV extractor: Python `None`
or a two-field dict of strings. -/
def ApprovalFactShape (j : Json) : Prop :=
  j = Json.null ∨ ∃ k v, j = Json.objOf [("row_key", .str k), ("approval", .str v)]

theorem approvalRow_shape (fns : List String) (acol : String)
    (kcol : Option String) (rows : List (List String)) (i : Nat) :
    approvalRow fns acol kcol rows i = none ∨
      ∃ k v, approvalRow fns acol kcol rows i =
        some (Json.objOf [("row_key", .str k), ("approval", .str v)]) := by
  simp only [approvalRow]
  by_cases h : (pyStrip ((pyRowGet fns (rows.getD i []) acol).getD "") == "") = true
  · rw [if_pos h]; exact Or.inl rfl
  · rw [if_neg h]; exact Or.inr ⟨_, _, rfl⟩

theorem approvalScan_shape (fns : List String) (acol : String)
    (kcol : Option String) (rows : List (List String)) (n : Nat) :
    ApprovalFactShape (approvalScan fns acol kcol rows n) := by
  induction n with
  | zero =>
    unfold approvalScan
    rcases approvalRow_shape fns acol kcol rows 0 with h | ⟨k, v, h⟩
    · rw [h]; exact Or.inl rfl
    · rw [h]; exact Or.inr ⟨k, v, rfl⟩
  | succ n ih =>
    unfold approvalScan
    rcases approvalRow_shape fns acol kcol rows (n + 1) with h | ⟨k, v, h⟩
    · rw [h]; exact ih
    · rw [h]; exact Or.inr ⟨k, v, rfl⟩

theorem parse_latest_approval_shape (text : String) :
    ApprovalFactShape (parse_latest_approval_from_csv text) := by
  unfold parse_latest_approval_from_csv
  cases csvRecords text with
  | nil => exact Or.inl rfl
  | cons fns rest =>
    by_cases h1 : fns.isEmpty
    · simp [h1, ApprovalFactShape]
    · simp only [h1]
      cases approvalColOf fns with
      | none => exact Or.inl rfl
      | some acol =>
        by_cases h2 : (rest.filter (fun r => !r.isEmpty)).isEmpty
        · simp [h2, ApprovalFactShape]
        · simp only [h2, Bool.false_eq_true, if_false]
          exact approvalScan_shape _ _ _ _ _

theorem extractApproval_shape (f : Option String) :
    ApprovalFactShape (extractApproval f) := by
  cases f with
  | none => exact Or.inl rfl
  | some text => exact parse_latest_approval_shape text

/-- Shape of a fact produced by the TSA extractor. -/
def TsaFactShape (j : Json) : Prop :=
  j = Json.null ∨ ∃ d n, j = Json.objOf [("date", .str d), ("passengers", intNum n)]

theorem tsaWindowScan_shape (rows : List (List String)) :
    TsaFactShape (tsaWindowScan rows) := by
  induction rows with
  | nil => exact Or.inl rfl
  | cons r rs ih =>
    unfold tsaWindowScan
    by_cases h1 : r.length < 2
    · simp only [h1, if_pos]; exact ih
    · simp only [h1, if_neg, if_false]
      cases hd : _parse_tsa_date (r.getD 0 "") with
      | none => exact ih
      | some date_iso =>
        cases hp : _parse_int (r.getD 1 "") with
        | none => exact ih
        | some passengers => exact Or.inr ⟨date_iso, passengers, rfl⟩

theorem tsaTables_shape (tables : List (List (List String))) :
    TsaFactShape (tsaTables tables) := by
  induction tables with
  | nil => exact Or.inl rfl
  | cons t rest ih =>
    unfold tsaTables
    by_cases h1 : t.length < 2
    · simp only [h1, if_pos]; exact ih
    · simp only [h1, if_neg, if_false]
      by_cases h2 : pyContains (tsaHeaderText t) "date"
      · simp only [h2, Bool.not_true, Bool.false_eq_true, if_false]
        rcases tsaWindowScan_shape ((t.drop 1).take 3) with h | ⟨d, n, h⟩
        · rw [h]; exact ih
        · rw [h]; exact Or.inr ⟨d, n, by simp [Json.objOf]⟩
      · simp only [h2, Bool.not_false, if_true]; exact ih

theorem extractTsa_shape (f : Option (List (List (List String)))) :
    TsaFactShape (extractTsa f) := by
  cases f with
  | none => exact Or.inl rfl
  | some tables =>
    unfold extractTsa parse_tsa_latest
    by_cases h : tables.isEmpty
    · simp [h, TsaFactShape]
    · simp only [h, Bool.false_eq_true, if_false]
      exact tsaTables_shape tables

/-! ## Well-formedness of stored prior records

The alert-formatting code in `main` can raise on ill-typed stored records
(a truthy non-string `row_key`, an un-`int`-able `passengers`).  These
predicates say a stored record is benign in that respect; every record the
program itself writes satisfies them. -/

def approvalPrevSafe (prev : Json) : Bool :=
  !isDict prev ||
    (!pyTruthy (dictGet prev "row_key") ||
      (match dictGet prev "row_key" with | .str _ => true | _ => false))

def tsaPrevSafe (prev : Json) : Bool :=
  !isDict prev || (pyIntOf (dictGetD prev "passengers" (intNum 0))).isSome

def rankedPrevSafe (prev : Json) : Bool :=
  match prev with
  | .arr l => rankedListOk l
  | _ => true

def heartbeatPrevSafe (hb : Json) : Bool :=
  match load_last_heartbeat hb with
  | none => true
  | some dt => dt.off.isNone

theorem rankedAlertCalc_isSome (prev : Json) (cur : List Json)
    (hs : rankedPrevSafe prev = true) :
    (rankedAlertCalc prev cur).isSome := by
  cases prev with
  | arr l =>
    unfold rankedAlertCalc
    by_cases hc :
        (isList (Json.arr l) && !pyEq (Json.arr l) (Json.arrOf cur)) = true
    · rw [if_pos hc]
      unfold rankedPrevSafe at hs
      simp only [] at hs ⊢
      rw [hs]
      rfl
    · rw [if_neg hc]; rfl
  | null => rfl
  | bool b => rfl
  | num m e => rfl
  | str t => rfl
  | obj kvs => rfl

theorem heartbeatCalc_isSome (hb : Json) (now : Int)
    (hs : heartbeatPrevSafe hb = true) :
    (heartbeatCalc (load_last_heartbeat hb) now).isSome := by
  unfold heartbeatPrevSafe at hs
  cases hl : load_last_heartbeat hb with
  | none => rfl
  | some dt =>
    rw [hl] at hs
    simp only [] at hs
    obtain ⟨ts, off⟩ := dt
    cases off with
    | none => rfl
    | some o => simp at hs

theorem orEmptyStrip_isSome_cases (v : Json)
    (h : pyTruthy v = false ∨ ∃ s, v = .str s) :
    ∃ t, orEmptyStrip v = some t := by
  rcases h with h | ⟨s, rfl⟩
  · exact ⟨"", by simp [orEmptyStrip, h]⟩
  · exact ⟨pyStrip s, orEmptyStrip_str s⟩

theorem approvalPrevSafe_elim (prev : Json)
    (hs : approvalPrevSafe prev = true) (hd : isDict prev = true) :
    pyTruthy (dictGet prev "row_key") = false ∨
      ∃ s, dictGet prev "row_key" = .str s := by
  unfold approvalPrevSafe at hs
  rw [hd] at hs
  simp only [Bool.not_true, Bool.false_or, Bool.or_eq_true,
    Bool.not_eq_true'] at hs
  rcases hs with h | h
  · exact Or.inl h
  · cases hv : dictGet prev "row_key" with
    | str s => exact Or.inr ⟨s, rfl⟩
    | null => rw [hv] at h; simp at h
    | bool b => rw [hv] at h; simp at h
    | num m e => rw [hv] at h; simp at h
    | arr xs => rw [hv] at h; simp at h
    | obj kvs => rw [hv] at h; simp at h

theorem maybe_send_isSome (prev latest : Json)
    (hs : approvalPrevSafe prev = true) (hl : ApprovalFactShape latest) :
    (maybe_send_approval_alert prev latest).isSome := by
  unfold maybe_send_approval_alert
  by_cases hc : (!pyTruthy latest || !isDict prev) = true
  · rw [if_pos hc]; rfl
  · rw [if_neg hc]
    simp only [Bool.or_eq_true, Bool.not_eq_true', not_or] at hc
    obtain ⟨hlat, hdict⟩ := hc
    rw [Bool.not_eq_false] at hlat hdict
    obtain ⟨ps, hps⟩ := orEmptyStrip_isSome_cases _
      (approvalPrevSafe_elim prev hs hdict)
    rw [hps]
    rcases hl with rfl | ⟨k, v, rfl⟩
    · exact absurd hlat (by simp [pyTruthy])
    · have hk : dictGet
          (Json.objOf [("row_key", .str k), ("approval", .str v)]) "row_key" =
          .str k := rfl
      rw [hk, orEmptyStrip_str]
      rfl

theorem tsaAlertCalc_isSome (prev latest : Json)
    (hs : tsaPrevSafe prev = true) (hl : TsaFactShape latest) :
    (tsaAlertCalc prev latest).isSome := by
  simp only [tsaAlertCalc]
  by_cases hc : (pyTruthy latest && isDict prev) = true
  · rw [if_pos hc]
    by_cases hd : (pyTruthy (dictGet prev "date") &&
        pyTruthy (dictGet latest "date") &&
        !pyEq (dictGet prev "date") (dictGet latest "date")) = true
    · rw [if_pos hd]
      rcases hl with rfl | ⟨d, n, rfl⟩
      · exact absurd hc (by simp [pyTruthy])
      · simp only [Bool.and_eq_true] at hc
        unfold tsaPrevSafe at hs
        rw [hc.2] at hs
        simp only [Bool.not_true, Bool.false_or] at hs
        obtain ⟨a, ha⟩ := Option.isSome_iff_exists.mp hs
        have hp : dictGetD
            (Json.objOf [("date", .str d), ("passengers", intNum n)])
            "passengers" (intNum 0) = intNum n := rfl
        rw [ha, hp]
        rfl
    · rw [if_neg hd]; rfl
  · rw [if_neg hc]; rfl

/-! ## Concrete sample data used by witnesses -/

def sampleFreeAnchors : List Anchor :=
  [⟨"/us/app/alpha/id111", some "Alpha", "1 Alpha"⟩,
   ⟨"/us/app/beta/id222", some "Beta", "2 Beta"⟩,
   ⟨"/us/app/gamma/id333", some "Gamma", "3 Gamma"⟩]

def samplePaidAnchors : List Anchor :=
  [⟨"/us/app/delta/id444", some "Delta", "1 Delta"⟩]

/-- A first-run environment: charts parse, every optional fetch failed,
no stored state at all. -/
def baseEnv : Env :=
  ⟨sampleFreeAnchors, samplePaidAnchors, none, none, none,
   .null, .null, .null, .null, .null, .null, 0⟩

/-- C1: for every optional source (TSA tabular, generic approval CSV,
Trump approval CSV), if extraction in a run fails (the extractor returns
no fact, or the fetch raised), the snapshot-store record of that source is
not written at all; a "no fact found" result (`None`) is never written;
and a record is overwritten only when extraction succeeded, in which case
exactly the extracted fact is written. -/
theorem claim_C1_failed_extraction_preserves_store (env : Env) :
    ((extractTsa env.tsaFetch = Json.null → (mainCore env).tsaWrite = none) ∧
      ∀ j, (mainCore env).tsaWrite = some j →
        j = extractTsa env.tsaFetch ∧ j ≠ Json.null) ∧
    ((extractApproval env.approvalFetch = Json.null →
        (mainCore env).approvalWrite = none) ∧
      ∀ j, (mainCore env).approvalWrite = some j →
        j = extractApproval env.approvalFetch ∧ j ≠ Json.null) ∧
    ((extractApproval env.trumpFetch = Json.null →
        (mainCore env).trumpWrite = none) ∧
      ∀ j, (mainCore env).trumpWrite = some j →
        j = extractApproval env.trumpFetch ∧ j ≠ Json.null) := by
  by_cases h1 : (parse_chart_topN env.freeAnchors [1, 2, 3]).length < 3
  · rw [mainCore_short env (Or.inl h1)]
    exact ⟨⟨fun _ => rfl, fun j hj => Option.noConfusion hj⟩,
      ⟨fun _ => rfl, fun j hj => Option.noConfusion hj⟩,
      ⟨fun _ => rfl, fun j hj => Option.noConfusion hj⟩⟩
  · by_cases h2 : (parse_chart_topN env.paidAnchors [1]).length < 1
    · rw [mainCore_short env (Or.inr h2)]
      exact ⟨⟨fun _ => rfl, fun j hj => Option.noConfusion hj⟩,
        ⟨fun _ => rfl, fun j hj => Option.noConfusion hj⟩,
        ⟨fun _ => rfl, fun j hj => Option.noConfusion hj⟩⟩
    · rw [mainCore_tsaWrite_run env h1 h2, mainCore_approvalWrite_run env h1 h2,
        mainCore_trumpWrite_run env h1 h2]
      exact ⟨⟨fun h => writeOpt_none_of_null _ h,
          fun j hj => writeOpt_some_inv _ _ hj⟩,
        ⟨fun h => writeOpt_none_of_null _ h,
          fun j hj => writeOpt_some_inv _ _ hj⟩,
        ⟨fun h => writeOpt_none_of_null _ h,
          fun j hj => writeOpt_some_inv _ _ hj⟩⟩

/-- Witness for C1 at a concrete environment where all three optional
fetches raised: no optional record is written. -/
theorem claim_C1_witness :
    (mainCore baseEnv).tsaWrite = none ∧
    (mainCore baseEnv).approvalWrite = none ∧
    (mainCore baseEnv).trumpWrite = none :=
  ⟨(claim_C1_failed_extraction_preserves_store baseEnv).1.1 rfl,
   (claim_C1_failed_extraction_preserves_store baseEnv).2.1.1 rfl,
   (claim_C1_failed_extraction_preserves_store baseEnv).2.2.1 rfl⟩

/-- A loaded prior of `None` silences the corresponding change alert (the
shared core of C2 and C10). -/
theorem mainCore_alert_silent_of_null (env : Env) :
    (env.prevFree = Json.null → (mainCore env).freeAlert = false) ∧
    (env.prevPaid = Json.null → (mainCore env).paidAlert = false) ∧
    (env.prevTsa = Json.null → (mainCore env).tsaAlert = false) ∧
    (env.prevApproval = Json.null → (mainCore env).approvalAlert = false) ∧
    (env.prevTrump = Json.null → (mainCore env).trumpAlert = false) := by
  by_cases h1 : (parse_chart_topN env.freeAnchors [1, 2, 3]).length < 3
  · rw [mainCore_short env (Or.inl h1)]
    exact ⟨fun _ => rfl, fun _ => rfl, fun _ => rfl, fun _ => rfl, fun _ => rfl⟩
  · by_cases h2 : (parse_chart_topN env.paidAnchors [1]).length < 1
    · rw [mainCore_short env (Or.inr h2)]
      exact ⟨fun _ => rfl, fun _ => rfl, fun _ => rfl, fun _ => rfl,
        fun _ => rfl⟩
    · refine ⟨fun h => ?_, fun h => ?_, fun h => ?_, fun h => ?_, fun h => ?_⟩
      · rw [mainCore_freeAlert_run env h1 h2]
        unfold runTailOf
        rw [h]
        exact runTail_free_of_false _ _ _ _ _ _ (rankedAlertCalc_null_prev _)
      · rw [mainCore_paidAlert_run env h1 h2]
        unfold runTailOf
        rw [h]
        exact runTail_paid_of_false _ _ _ _ _ _ (rankedAlertCalc_null_prev _)
      · rw [mainCore_tsaAlert_run env h1 h2]
        unfold runTailOf
        rw [h]
        exact runTail_tsa_of_false _ _ _ _ _ _ (tsaAlertCalc_null_prev _)
      · rw [mainCore_approvalAlert_run env h1 h2]
        unfold runTailOf
        rw [h]
        exact runTail_appr_of_false _ _ _ _ _ _ (maybe_send_null_prev _)
      · rw [mainCore_trumpAlert_run env h1 h2]
        unfold runTailOf
        rw [h]
        exact runTail_trump_of_false _ _ _ _ _ _ (maybe_send_null_prev _)

/-- C2: on a first run for a source (no prior state, so its loaded record
is `None`), no change alert fires for that source, for every fact kind
(ranked snapshot, dated metric, latest-CSV fact), whatever the extracted
current value is. -/
theorem claim_C2_first_run_silent (env : Env) :
    (env.prevFree = Json.null → (mainCore env).freeAlert = false) ∧
    (env.prevPaid = Json.null → (mainCore env).paidAlert = false) ∧
    (env.prevTsa = Json.null → (mainCore env).tsaAlert = false) ∧
    (env.prevApproval = Json.null → (mainCore env).approvalAlert = false) ∧
    (env.prevTrump = Json.null → (mainCore env).trumpAlert = false) :=
  mainCore_alert_silent_of_null env

/-- Witness for C2 at a concrete first-run environment: no alert fires. -/
theorem claim_C2_witness :
    (mainCore baseEnv).freeAlert = false ∧
    (mainCore baseEnv).paidAlert = false ∧
    (mainCore baseEnv).tsaAlert = false ∧
    (mainCore baseEnv).approvalAlert = false ∧
    (mainCore baseEnv).trumpAlert = false :=
  ⟨(claim_C2_first_run_silent baseEnv).1 rfl,
   (claim_C2_first_run_silent baseEnv).2.1 rfl,
   (claim_C2_first_run_silent baseEnv).2.2.1 rfl,
   (claim_C2_first_run_silent baseEnv).2.2.2.1 rfl,
   (claim_C2_first_run_silent baseEnv).2.2.2.2 rfl⟩

/-- C3: the run returns exit code 1 exactly when a mandatory ranked-list
source yields fewer items than its minimum (fewer than 3 for the free
chart, fewer than 1 for the paid chart).  When both mandatory sources
succeed (and the stored records are well formed, so neither the heartbeat
comparison nor any alert-formatting code raises), the run returns 0, both
chart states are persisted, and each optional source is persisted exactly
according to its own extraction result - a failure of any optional source
affects nothing else. -/
theorem claim_C3_exit_codes_and_isolation (env : Env)
    (hFree : rankedPrevSafe env.prevFree = true)
    (hPaid : rankedPrevSafe env.prevPaid = true)
    (hHb : heartbeatPrevSafe env.heartbeatJson = true)
    (hTsa : tsaPrevSafe env.prevTsa = true)
    (hAppr : approvalPrevSafe env.prevApproval = true)
    (hTrump : approvalPrevSafe env.prevTrump = true) :
    ((mainCore env).exit = some 1 ↔
      (parse_chart_topN env.freeAnchors [1, 2, 3]).length < 3 ∨
      (parse_chart_topN env.paidAnchors [1]).length < 1) ∧
    (¬((parse_chart_topN env.freeAnchors [1, 2, 3]).length < 3 ∨
        (parse_chart_topN env.paidAnchors [1]).length < 1) →
      (mainCore env).exit = some 0 ∧
      (mainCore env).freeWrite =
        some (Json.arrOf (parse_chart_topN env.freeAnchors [1, 2, 3])) ∧
      (mainCore env).paidWrite =
        some (Json.arrOf (parse_chart_topN env.paidAnchors [1])) ∧
      (mainCore env).tsaWrite =
        (if pyTruthy (extractTsa env.tsaFetch)
         then some (extractTsa env.tsaFetch) else none) ∧
      (mainCore env).approvalWrite =
        (if pyTruthy (extractApproval env.approvalFetch)
         then some (extractApproval env.approvalFetch) else none) ∧
      (mainCore env).trumpWrite =
        (if pyTruthy (extractApproval env.trumpFetch)
         then some (extractApproval env.trumpFetch) else none)) := by
  constructor
  · constructor
    · intro he
      by_cases hs : (parse_chart_topN env.freeAnchors [1, 2, 3]).length < 3 ∨
          (parse_chart_topN env.paidAnchors [1]).length < 1
      · exact hs
      · rw [not_or] at hs
        rw [mainCore_exit_run env hs.1 hs.2] at he
        exact absurd he (runTail_exit_ne_one _ _ _ _ _ _)
    · intro hs
      rw [mainCore_short env hs]
      rfl
  · intro hns
    rw [not_or] at hns
    obtain ⟨h1, h2⟩ := hns
    refine ⟨?_, mainCore_freeWrite_run env h1 h2, mainCore_paidWrite_run env h1 h2,
      mainCore_tsaWrite_run env h1 h2, mainCore_approvalWrite_run env h1 h2,
      mainCore_trumpWrite_run env h1 h2⟩
    rw [mainCore_exit_run env h1 h2]
    exact runTail_exit_of_isSome _ _ _ _ _ _
      (heartbeatCalc_isSome _ _ hHb)
      (rankedAlertCalc_isSome _ _ hFree)
      (rankedAlertCalc_isSome _ _ hPaid)
      (tsaAlertCalc_isSome _ _ hTsa (extractTsa_shape _))
      (maybe_send_isSome _ _ hAppr (extractApproval_shape _))
      (maybe_send_isSome _ _ hTrump (extractApproval_shape _))

/-- Witness for C3: a concrete run where both charts parse and every
optional source failed still exits 0, and a concrete run with an
unparsable free chart exits 1. -/
theorem claim_C3_witness :
    (mainCore baseEnv).exit = some 0 ∧
    (mainCore { baseEnv with freeAnchors := [] }).exit = some 1 := by
  constructor
  · exact ((claim_C3_exit_codes_and_isolation baseEnv rfl rfl rfl rfl rfl
      rfl).2 (by decide)).1
  · exact (claim_C3_exit_codes_and_isolation { baseEnv with freeAnchors := [] }
      rfl rfl rfl rfl rfl rfl).1.mpr (Or.inl (by decide))

/-! ## C4: the claimed markup guard of the CSV extractor -/

/-- Modelled from the spec: the guard condition the spec describes for the
CSV-Latest-Value Extractor - after trimming leading whitespace the text
begins, case-insensitively, with a doctype or html tag. -/
def leadingLooksHtml (s : String) : Bool :=
  let t := (s.data.dropWhile isSpaceChar).map toLowerChar
  "<!doctype".data.isPrefixOf t || "<html".data.isPrefixOf t

/-- A markup-looking input whose first line nevertheless contains a cell
named `approval`. -/
def csvDoctypeWithApproval : String :=
  "<!DOCTYPE html>,approval\n1/2/2024,45\n"

/-- C4 counterexample: the code has no markup guard.  On an input that
begins with a doctype tag the extractor does not return "not found"; when
the first CSV record happens to contain an `approval` cell it returns a
fact, contradicting the claim that markup input is rejected immediately
regardless of target-column presence. -/
theorem claim_C4_counterexample :
    leadingLooksHtml csvDoctypeWithApproval = true ∧
    parse_latest_approval_from_csv csvDoctypeWithApproval =
      Json.objOf [("row_key", .str "row_1"), ("approval", .str "45")] ∧
    Json.objOf [("row_key", .str "row_1"), ("approval", .str "45")] ≠
      Json.null :=
  ⟨rfl, by decide, by decide⟩

/-- The first CSV record of the text contains a usable `approval` field. -/
def headerHasApprovalField (s : String) : Bool :=
  match csvRecords s with
  | [] => false
  | fns :: _ => fns.any (fun c => c != "" && pyLower (pyStrip c) == "approval")

/-- C4 amended: there is no markup guard; the extractor returns "not
found" on every input - markup or not - whose first CSV record contains no
cell matching `approval` case-insensitively after trimming (so a typical
HTML error page is still rejected, but only for lack of an `approval`
column, and markup whose first line contains an `approval` cell is
ingested). -/
theorem claim_C4_amended (s : String) (h : headerHasApprovalField s = false) :
    parse_latest_approval_from_csv s = Json.null := by
  unfold headerHasApprovalField at h
  unfold parse_latest_approval_from_csv
  cases hr : csvRecords s with
  | nil => rfl
  | cons fns rest =>
    rw [hr] at h
    simp only [] at h ⊢
    by_cases h1 : fns.isEmpty = true
    · rw [if_pos h1]
    · rw [if_neg h1]
      have hcol : approvalColOf fns = none := by
        unfold approvalColOf
        rw [List.find?_eq_none]
        intro c hc hpc
        have hany : (fns.any fun c => c != "" && pyLower (pyStrip c) == "approval") =
            true := List.any_eq_true.mpr ⟨c, hc, hpc⟩
        rw [h] at hany
        exact Bool.false_ne_true hany
      rw [hcol]

/-- Witness for the amended C4: a concrete HTML error page (no `approval`
cell anywhere in its first line) is rejected. -/
theorem claim_C4_witness :
    headerHasApprovalField
        "<!DOCTYPE html>\n<html><body>Service Unavailable</body></html>\n" =
      false ∧
    parse_latest_approval_from_csv
        "<!DOCTYPE html>\n<html><body>Service Unavailable</body></html>\n" =
      Json.null :=
  ⟨rfl, claim_C4_amended
    "<!DOCTYPE html>\n<html><body>Service Unavailable</body></html>\n" rfl⟩

/-! ## C5: table selection in the TSA extractor -/

/-- The loop's table guard: at least two rows and the keyword `date` in
the normalized first-row text. -/
def tsaTableMatches (t : List (List String)) : Bool :=
  !decide (t.length < 2) && pyContains (tsaHeaderText t) "date"

/-- The scan window outcome of one table as an `Option`. -/
def tsaWindowYieldOpt (t : List (List String)) : Option Json :=
  match tsaWindowScan ((t.drop 1).take 3) with
  | .null => none
  | j => some j

/-- A matching table whose three-row window has no clean row. -/
def tsaTableA : List (List String) :=
  [["Date", "Passengers"], ["garbage", "n/a"]]

/-- A later matching table with a clean first data row. -/
def tsaTableB : List (List String) :=
  [["Date", "Count"], ["3/14/2024", "1,234"]]

/-- C5 counterexample: with a first matching table whose window has no
clean row, the claim requires "not found" without scanning any later
table; the code instead continues to the second matching table and
returns its row. -/
theorem claim_C5_counterexample :
    tsaTableMatches tsaTableA = true ∧
    tsaWindowYieldOpt tsaTableA = none ∧
    parse_tsa_latest [tsaTableA, tsaTableB] =
      Json.objOf [("date", .str "2024-03-14"), ("passengers", intNum 1234)] ∧
    Json.objOf [("date", .str "2024-03-14"), ("passengers", intNum 1234)] ≠
      Json.null :=
  ⟨rfl, rfl, by decide, by decide⟩

/-- C5 amended: the extractor skips every table with fewer than two rows
or whose first-row text lacks `date`; among the matching tables, in
document order, it returns the first clean row found in a table's
first-three-data-row window; a matching table whose window has no clean
row does **not** stop the scan - later tables are still tried - and "not
found" results only when no matching table yields a clean row. -/
theorem claim_C5_amended (tables : List (List (List String))) :
    parse_tsa_latest tables =
      ((tables.filter tsaTableMatches).findSome? tsaWindowYieldOpt).getD
        Json.null := by
  have core : ∀ ts : List (List (List String)), tsaTables ts =
      ((ts.filter tsaTableMatches).findSome? tsaWindowYieldOpt).getD
        Json.null := by
    intro ts
    induction ts with
    | nil => rfl
    | cons t rest ih =>
      rw [List.filter_cons]
      unfold tsaTables
      split
      · -- t.length < 2: not a matching table
        next h1 =>
          have hm : tsaTableMatches t = false := by
            simp [tsaTableMatches, h1]
          rw [hm]
          simpa using ih
      · next h1 =>
        split
        · -- header lacks the keyword: not a matching table
          next h2 =>
            have hm : tsaTableMatches t = false := by
              simp only [Bool.not_eq_true', Bool.not_eq_false] at h2
              simp [tsaTableMatches, h2]
            rw [hm]
            simpa using ih
        · -- a matching table: the window decides
          next h2 =>
            have hm : tsaTableMatches t = true := by
              simp only [Bool.not_eq_true', Bool.not_eq_false] at h2
              simp [tsaTableMatches, h1, h2]
            rw [hm]
            simp only [if_true]
            rw [List.findSome?_cons]
            cases hw : tsaWindowScan ((t.drop 1).take 3) with
            | null =>
              have hopt : tsaWindowYieldOpt t = none := by
                unfold tsaWindowYieldOpt
                rw [hw]
              rw [hopt]
              exact ih
            | bool b =>
              have hopt : tsaWindowYieldOpt t = some (.bool b) := by
                unfold tsaWindowYieldOpt
                rw [hw]
              rw [hopt]
              rfl
            | num m e =>
              have hopt : tsaWindowYieldOpt t = some (.num m e) := by
                unfold tsaWindowYieldOpt
                rw [hw]
              rw [hopt]
              rfl
            | str sv =>
              have hopt : tsaWindowYieldOpt t = some (.str sv) := by
                unfold tsaWindowYieldOpt
                rw [hw]
              rw [hopt]
              rfl
            | arr xs =>
              have hopt : tsaWindowYieldOpt t = some (.arr xs) := by
                unfold tsaWindowYieldOpt
                rw [hw]
              rw [hopt]
              rfl
            | obj kvs =>
              have hopt : tsaWindowYieldOpt t = some (.obj kvs) := by
                unfold tsaWindowYieldOpt
                rw [hw]
              rw [hopt]
              rfl
  unfold parse_tsa_latest
  by_cases he : tables.isEmpty = true
  · have : tables = [] := by
      cases tables with
      | nil => rfl
      | cons a b => exact absurd he (by simp)
    subst this
    rfl
  · rw [if_neg he]
    exact core tables

/-! ## C6: the last-non-empty-row rule of the CSV extractor -/

/-- The spec example verbatim: target column named `approve`. -/
def csvApproveExample : String := "date,approve\n1/1/2024,\n1/2/2024,45\n"

/-- C6 counterexample: the extractor's target column is the literal
`approval`; on the claim's example rows, whose value column is named
`approve`, it finds no target column and returns "not found" instead of
the claimed fact. -/
theorem claim_C6_counterexample :
    parse_latest_approval_from_csv csvApproveExample = Json.null ∧
    Json.null ≠
      Json.objOf [("row_key", .str "1/2/2024"), ("approval", .str "45")] :=
  ⟨rfl, by decide⟩

/-- The stripped target-column value of data row `i`. -/
def approvalValAt (fns : List String) (acol : String)
    (rows : List (List String)) (i : Nat) : String :=
  pyStrip ((pyRowGet fns (rows.getD i []) acol).getD "")

theorem approvalRow_of_val_empty (fns : List String) (acol : String)
    (kcol : Option String) (rows : List (List String)) (i : Nat)
    (h : approvalValAt fns acol rows i = "") :
    approvalRow fns acol kcol rows i = none := by
  unfold approvalValAt at h
  simp only [approvalRow]
  rw [h]
  rfl

theorem approvalRow_isSome_of_val_ne (fns : List String) (acol : String)
    (kcol : Option String) (rows : List (List String)) (i : Nat)
    (h : ¬ approvalValAt fns acol rows i = "") :
    (approvalRow fns acol kcol rows i).isSome := by
  unfold approvalValAt at h
  simp only [approvalRow]
  rw [if_neg (by simpa using h)]
  rfl

/-- The backward scan lands exactly on the last row with a non-empty
target value. -/
theorem approvalScan_last_nonempty (fns : List String) (acol : String)
    (kcol : Option String) (rows : List (List String)) (i : Nat)
    (hiv : ¬ approvalValAt fns acol rows i = "") :
    ∀ j, i ≤ j → (∀ k, i < k → k ≤ j → approvalValAt fns acol rows k = "") →
      approvalScan fns acol kcol rows j =
        (approvalRow fns acol kcol rows i).getD .null := by
  intro j hij
  induction j, hij using Nat.le_induction with
  | base =>
    intro _
    cases i with
    | zero => rfl
    | succ n =>
      obtain ⟨f, hf⟩ := Option.isSome_iff_exists.mp
        (approvalRow_isSome_of_val_ne fns acol kcol rows (n + 1) hiv)
      unfold approvalScan
      rw [hf]
      rfl
  | succ j hij ih =>
    intro hemp
    have hv : approvalValAt fns acol rows (j + 1) = "" :=
      hemp (j + 1) (Nat.lt_succ_of_le hij) (le_refl _)
    unfold approvalScan
    rw [approvalRow_of_val_empty fns acol kcol rows (j + 1) hv]
    exact ih (fun k hk1 hk2 => hemp k hk1 (Nat.le_succ_of_le hk2))

/-- C6 amended (the example column renamed to the code's `approval`): for
every CSV input with a header row and a located `approval` column, the
extractor returns the fact of the last data row (in file order) whose
target value is non-empty after trimming; its `row_key` is that same
row's key-column value when present and non-empty, else the synthesized
`row_N` label from its 1-based position (this is exactly `approvalRow` at
that index). -/
theorem claim_C6_amended (s : String) (fns : List String)
    (rest : List (List String)) (acol : String) (i : Nat)
    (hrec : csvRecords s = fns :: rest)
    (hfns : fns.isEmpty = false)
    (hacol : approvalColOf fns = some acol)
    (hlen : i < (rest.filter (fun r => !r.isEmpty)).length)
    (hival : ¬ approvalValAt fns acol (rest.filter (fun r => !r.isEmpty)) i = "")
    (hafter : ∀ k, i < k → k < (rest.filter (fun r => !r.isEmpty)).length →
      approvalValAt fns acol (rest.filter (fun r => !r.isEmpty)) k = "") :
    parse_latest_approval_from_csv s =
      (approvalRow fns acol (dateKeyColOf fns)
        (rest.filter (fun r => !r.isEmpty)) i).getD .null := by
  unfold parse_latest_approval_from_csv
  rw [hrec]
  simp only []
  rw [if_neg (by simp [hfns]), hacol]
  simp only []
  have hlenpos : 0 < (rest.filter (fun r => !r.isEmpty)).length :=
    Nat.lt_of_le_of_lt (Nat.zero_le i) hlen
  rw [if_neg (by
    intro hh
    rw [List.isEmpty_iff] at hh
    rw [hh] at hlenpos
    exact Nat.lt_irrefl 0 hlenpos)]
  exact approvalScan_last_nonempty fns acol (dateKeyColOf fns)
    (rest.filter (fun r => !r.isEmpty)) i hival
    ((rest.filter (fun r => !r.isEmpty)).length - 1)
    (by omega)
    (fun k hk1 hk2 => hafter k hk1 (by omega))

/-- Witness for the amended C6, on the example rows with the `approval`
column: the last non-empty row wins and supplies both key and value. -/
theorem claim_C6_witness :
    parse_latest_approval_from_csv "date,approval\n1/1/2024,\n1/2/2024,45\n" =
      Json.objOf [("row_key", .str "1/2/2024"), ("approval", .str "45")] := by
  have h := claim_C6_amended "date,approval\n1/1/2024,\n1/2/2024,45\n"
    ["date", "approval"] [["1/1/2024", ""], ["1/2/2024", "45"]] "approval" 1
    rfl rfl rfl (by decide) (by decide)
    (by
      intro k h1 h2
      rw [show (List.filter (fun r => !r.isEmpty)
        [["1/1/2024", ""], ["1/2/2024", "45"]]).length = 2 from rfl] at h2
      exact absurd h2 (by omega))
  exact h.trans rfl

/-- C7: for prior and current `LatestCsvFact` values that both exist, the
approval change alert fires exactly when both trimmed row keys are
non-empty and differ, or both trimmed values are non-empty and differ; an
empty-versus-nonempty difference in either field alone never fires. -/
theorem claim_C7_csv_change_rule (pk pv nk nv : String) :
    maybe_send_approval_alert
        (Json.objOf [("row_key", .str pk), ("approval", .str pv)])
        (Json.objOf [("row_key", .str nk), ("approval", .str nv)]) =
      some ((pyStrip pk != "" && pyStrip nk != "" &&
              pyStrip pk != pyStrip nk) ||
            (pyStrip pv != "" && pyStrip nv != "" &&
              pyStrip pv != pyStrip nv)) := by
  unfold maybe_send_approval_alert
  have hc : (!pyTruthy (Json.objOf [("row_key", Json.str nk),
      ("approval", Json.str nv)]) ||
      !isDict (Json.objOf [("row_key", Json.str pk),
        ("approval", Json.str pv)])) = false := rfl
  rw [hc, if_neg (by decide)]
  rw [show dictGet (Json.objOf [("row_key", Json.str pk),
        ("approval", Json.str pv)]) "row_key" = Json.str pk from rfl,
      show dictGet (Json.objOf [("row_key", Json.str nk),
        ("approval", Json.str nv)]) "row_key" = Json.str nk from rfl,
      show dictGet (Json.objOf [("row_key", Json.str pk),
        ("approval", Json.str pv)]) "approval" = Json.str pv from rfl,
      show dictGet (Json.objOf [("row_key", Json.str nk),
        ("approval", Json.str nv)]) "approval" = Json.str nv from rfl,
      orEmptyStrip_str pk, orEmptyStrip_str nk,
      strOf_or_strip pv, strOf_or_strip nv]

/-- C8: the heartbeat is sent exactly when no stored heartbeat timestamp
exists or at least 4 hours (measured against the clock read during the
run) have passed since it (the stored timestamp being naive, as every
timestamp the program itself writes is); the heartbeat record is
overwritten - with the run's clock value - exactly in the runs where a
heartbeat is sent. -/
theorem claim_C8_heartbeat_cadence (env : Env)
    (h1 : ¬(parse_chart_topN env.freeAnchors [1, 2, 3]).length < 3)
    (h2 : ¬(parse_chart_topN env.paidAnchors [1]).length < 1)
    (hsafe : heartbeatPrevSafe env.heartbeatJson = true) :
    ((mainCore env).hbSent = true ↔
      load_last_heartbeat env.heartbeatJson = none ∨
      ∃ dt, load_last_heartbeat env.heartbeatJson = some dt ∧
        heartbeatIntervalUs ≤ env.now - dt.ts) ∧
    (mainCore env).hbWrite =
      (if (mainCore env).hbSent
       then some (Json.objOf [("ts", .str (isoformat env.now))]) else none) := by
  refine ⟨?_, mainCore_hbWrite_run env h1 h2⟩
  rw [mainCore_hbSent_run env h1 h2]
  unfold heartbeatPrevSafe at hsafe
  cases hl : load_last_heartbeat env.heartbeatJson with
  | none => simp [heartbeatCalc]
  | some dt =>
    rw [hl] at hsafe
    simp only [] at hsafe
    obtain ⟨ts, off⟩ := dt
    cases off with
    | some o => simp at hsafe
    | none =>
      constructor
      · intro hd
        exact Or.inr ⟨⟨ts, none⟩, rfl, of_decide_eq_true hd⟩
      · rintro (h | ⟨dt2, ht2, hle⟩)
        · exact Option.noConfusion h
        · cases Option.some.inj ht2
          exact decide_eq_true hle

/-- A concrete environment with a stored heartbeat exactly 4 hours old. -/
def hbEnv : Env :=
  { baseEnv with
    heartbeatJson := Json.objOf [("ts", .str "2024-01-01T00:00:00")]
    now := epochMicros 2024 1 1 4 0 0 0 }

/-- Witness for C8: after exactly the 4-hour interval the heartbeat fires
and the heartbeat record is rewritten. -/
theorem claim_C8_witness :
    (mainCore hbEnv).hbSent = true ∧ (mainCore hbEnv).hbWrite ≠ none := by
  have h := claim_C8_heartbeat_cadence hbEnv (by decide) (by decide) (by decide)
  have hs : (mainCore hbEnv).hbSent = true :=
    h.1.mpr (Or.inr ⟨⟨epochMicros 2024 1 1 0 0 0 0, none⟩, by decide,
      by decide⟩)
  refine ⟨hs, ?_⟩
  rw [h.2, if_pos hs]
  exact fun hh => Option.noConfusion hh

/-! ## C9: the claimed approve/modeldate variant for the Trump feed -/

/-- Modelled from the spec: the variant CSV interpretation the spec
describes for the one monitored Trump feed - it requires both an
`approve` value column and a `modeldate` key column to be non-empty on
the same row, walks rows from the end taking the first such row, and
normalizes the date into a canonical year-month-day form for comparison
while preserving the original string for display. -/
def variantScanRev (fns : List String) (acol kcol : String) :
    List (List String) → Json
  | [] => .null
  | row :: rest =>
    let val := pyStrip ((pyRowGet fns row acol).getD "")
    let key := pyStrip ((pyRowGet fns row kcol).getD "")
    if val != "" && key != "" then
      Json.objOf [("modeldate", .str key),
        ("date_norm", .str ((_parse_tsa_date key).getD key)),
        ("approve", .str val)]
    else variantScanRev fns acol kcol rest

/-- Modelled from the spec: entry point of the claimed variant. -/
def variantApproveModeldate (s : String) : Json :=
  match csvRecords s with
  | [] => .null
  | fns :: rest =>
    match fns.find? (fun c => c != "" && pyLower (pyStrip c) == "approve"),
          fns.find? (fun c => c != "" && pyLower (pyStrip c) == "modeldate") with
    | some acol, some kcol =>
      variantScanRev fns acol kcol ((rest.filter (fun r => !r.isEmpty)).reverse)
    | _, _ => .null

/-- A Trump-feed CSV in the shape the claimed variant expects. -/
def trumpVariantCsv : String := "modeldate,approve\n1/2/2024,45\n"

/-- C9 counterexample: on a feed with non-empty `approve` and `modeldate`
columns the claimed variant produces a normalized-date fact, but the code
parses the Trump feed with the generic `approval`-column extractor and
finds nothing - there is no variant in the code. -/
theorem claim_C9_counterexample :
    extractApproval (some trumpVariantCsv) = Json.null ∧
    variantApproveModeldate trumpVariantCsv =
      Json.objOf [("modeldate", .str "1/2/2024"),
        ("date_norm", .str "2024-01-02"), ("approve", .str "45")] ∧
    variantApproveModeldate trumpVariantCsv ≠ Json.null :=
  ⟨rfl, by decide, by decide⟩

/-- C9 amended: the Trump approval feed is parsed with exactly the same
generic rules as the generic approval feed (target column `approval`,
optional date-like key column, last-non-empty-row rule); there is no
`approve`/`modeldate` requirement and no date normalization, and with
equal fetch results the two feeds write identical records. -/
theorem claim_C9_amended :
    (∀ s, extractApproval (some s) = parse_latest_approval_from_csv s) ∧
    (∀ env : Env, env.trumpFetch = env.approvalFetch →
      (mainCore env).trumpWrite = (mainCore env).approvalWrite) := by
  refine ⟨fun s => rfl, fun env h => ?_⟩
  by_cases h1 : (parse_chart_topN env.freeAnchors [1, 2, 3]).length < 3
  · rw [mainCore_short env (Or.inl h1)]
    rfl
  · by_cases h2 : (parse_chart_topN env.paidAnchors [1]).length < 1
    · rw [mainCore_short env (Or.inr h2)]
      rfl
    · rw [mainCore_trumpWrite_run env h1 h2,
        mainCore_approvalWrite_run env h1 h2, h]

/-- A concrete run where both approval feeds fetched the same text. -/
def dualFeedEnv : Env :=
  { baseEnv with
    approvalFetch := some "date,approval\n1/2/2024,45\n"
    trumpFetch := some "date,approval\n1/2/2024,45\n" }

/-- Witness for the amended C9: with equal fetches the Trump and generic
feeds persist the same record. -/
theorem claim_C9_witness :
    (mainCore dualFeedEnv).trumpWrite = (mainCore dualFeedEnv).approvalWrite :=
  claim_C9_amended.2 dualFeedEnv rfl

/-- C10: loading persisted state never raises - a missing file, bytes that
do not decode as UTF-8, and contents that are not valid JSON all load as
`None` - so a corrupted record behaves exactly like first-run absence: no
change alert fires for that source, and a successful extraction replaces
the corrupted record with the fresh fact. -/
theorem claim_C10_robust_state_loading :
    load_json none = Json.null ∧
    (∀ bs, utf8Decode bs = none → load_json (some bs) = Json.null) ∧
    (∀ bs cs, utf8Decode bs = some cs → jsonParseChars cs = none →
      load_json (some bs) = Json.null) ∧
    (∀ env : Env, env.prevFree = Json.null → (mainCore env).freeAlert = false) ∧
    (∀ env : Env, env.prevPaid = Json.null → (mainCore env).paidAlert = false) ∧
    (∀ env : Env, env.prevTsa = Json.null → (mainCore env).tsaAlert = false) ∧
    (∀ env : Env, env.prevApproval = Json.null →
      (mainCore env).approvalAlert = false) ∧
    (∀ env : Env, env.prevTrump = Json.null →
      (mainCore env).trumpAlert = false) ∧
    (∀ env : Env, ¬(parse_chart_topN env.freeAnchors [1, 2, 3]).length < 3 →
      ¬(parse_chart_topN env.paidAnchors [1]).length < 1 →
      pyTruthy (extractTsa env.tsaFetch) = true →
      (mainCore env).tsaWrite = some (extractTsa env.tsaFetch)) := by
  refine ⟨rfl, fun bs hb => ?_, fun bs cs hu hj => ?_,
    fun env => (mainCore_alert_silent_of_null env).1,
    fun env => (mainCore_alert_silent_of_null env).2.1,
    fun env => (mainCore_alert_silent_of_null env).2.2.1,
    fun env => (mainCore_alert_silent_of_null env).2.2.2.1,
    fun env => (mainCore_alert_silent_of_null env).2.2.2.2,
    fun env h1 h2 ht => ?_⟩
  · unfold load_json
    simp only []
    rw [hb]
  · unfold load_json
    simp only []
    rw [hu]
    simp only []
    rw [hj]
    rfl
  · rw [mainCore_tsaWrite_run env h1 h2, if_pos ht]

/-- Witness for C10 at concrete inputs: an invalid UTF-8 file, a valid
UTF-8 file that is not JSON, and a null prior all behave as first run. -/
theorem claim_C10_witness :
    load_json (some [0xFF]) = Json.null ∧
    load_json (some [0x61]) = Json.null ∧
    (mainCore baseEnv).freeAlert = false :=
  ⟨claim_C10_robust_state_loading.2.1 [0xFF] rfl,
   claim_C10_robust_state_loading.2.2.1 [0x61] [Char.ofNat 0x61] rfl rfl,
   claim_C10_robust_state_loading.2.2.2.1 baseEnv rfl⟩
